import Mathlib

/-!
# Verification of the yb_stats entities module (`src/entities/functions.rs`)

This file gives a shallow embedding, in Lean 4, of the pure logic of the
topology-snapshot and diff engine found in `src/entities/functions.rs`:

* the identifier decoder (`object_oid_number`),
* the topology data model (`Keyspace`, `Table`, `Tablet`, `Replica`,
  `Entities`),
* the diff engine (`EntitiesDiff` with its `first_snapshot` /
  `second_snapshot` merge passes and its `print` classification),
* the live rendering (`AllEntities.print`).

Conventions of the embedding:

* Rust `BTreeMap`s are modelled as association lists (`List (K × V)`)
  together with `lookupKey` / `containsKey` / `btreeEntry`, which reproduce
  the `entry().and_modify().or_insert()` API used by the source.  The source
  iterates its maps in key order; here entries are kept in insertion order.
  All properties proved below are insensitive to the iteration order of the
  map (they are per-entry, or about emptiness / membership of the output).
* Fallible code is embedded in `Option`: a Rust `panic!` (an `unwrap()` that
  can fail) becomes `none`.
* Terminal output is embedded as a list of structured line records (one
  constructor per `println!` shape, carrying the semantically relevant
  fields); `error!` log calls become `LogError` values returned alongside.
* The four per-kind merge loops of a pass only touch their own map, so the
  per-entity interleaving of the source (keyspaces, then tables, then
  tablets with nested replicas, for each entity in turn) is flattened here
  into one stream per kind; this is observationally identical because the
  four maps are disjoint pieces of state.
* Identifier strings are treated at the character level.  The identifiers
  this system consumes are ASCII, where Rust's byte indexing (`oid.len()`,
  `&oid[24..]`) coincides with character indexing.
-/

/-! ## Data model

The struct definitions (`Entities`, `KeyspaceDiff`, ...) live in the crate's
`entities` module outside the provided source file; their fields are exactly
the ones the provided functions read and write, with types as used there
(`tablet.leader` and `tablet.replicas` are `Option`s in the source).
-/

/-- One keyspace row of `/dump-entities` (`keyspace_id`, `keyspace_name`,
`keyspace_type`). -/
structure Keyspace where
  keyspace_id : String
  keyspace_name : String
  keyspace_type : String
deriving DecidableEq

/-- One table row of `/dump-entities`. -/
structure Table where
  table_id : String
  keyspace_id : String
  table_name : String
  state : String
deriving DecidableEq

/-- One replica row nested in a tablet. -/
structure Replica where
  replica_type : String
  server_uuid : String
  addr : String
deriving DecidableEq

/-- One tablet row of `/dump-entities`; `leader` and `replicas` are optional
in the wire format. -/
structure Tablet where
  table_id : String
  tablet_id : String
  state : String
  leader : Option String
  replicas : Option (List Replica)
deriving DecidableEq

/-- One per-node snapshot (the `Entities` struct).  Modelled from the spec:
the struct itself is outside the provided source; spec §3 tags each snapshot
with its `source_node` (`hostname_port`), which the provided code always
populates before use. -/
structure Entities where
  keyspaces : List Keyspace
  tables : List Table
  tablets : List Tablet
  hostname_port : String
deriving DecidableEq

/-! ## Identifier decoder

`object_oid_number` (a closure duplicated in `AllEntities::print` and
`EntitiesDiff::print`): if the id has length 32, parse the trailing segment
`oid[24..]` as base-16 via `u32::from_str_radix(..).unwrap()` — the
`unwrap` panics when the segment is not hexadecimal, which the embedding
renders as `none`; otherwise return 0. -/

/-- Value of one hexadecimal digit, `none` for a non-hex character
(mirrors the per-digit acceptance of `u32::from_str_radix(_, 16)`); the
code points 48–57, 97–102 and 65–70 are the ASCII digits, `a`–`f` and
`A`–`F`. -/
def hexVal (c : Char) : Option Nat :=
  if 48 ≤ c.toNat ∧ c.toNat ≤ 57 then some (c.toNat - 48)
  else if 97 ≤ c.toNat ∧ c.toNat ≤ 102 then some (c.toNat - 87)
  else if 65 ≤ c.toNat ∧ c.toNat ≤ 70 then some (c.toNat - 55)
  else none

/-- Base-16 value of a digit list, ignoring failures (used to state what a
successful parse returns). -/
def hexNat (ds : List Char) : Nat :=
  ds.foldl (fun a c => 16 * a + ((hexVal c).getD 0)) 0

/-- `u32::from_str_radix(s, 16)`: an optional leading `+`, then a nonempty
run of hexadecimal digits, with the result required to fit in a `u32`. -/
def from_str_radix_16 (s : List Char) : Option Nat :=
  let ds := if s.head? = some '+' then s.tail else s
  if ds = [] then none
  else if ds.all (fun c => (hexVal c).isSome) then
    if hexNat ds < 2 ^ 32 then some (hexNat ds) else none
  else none

/-- The `object_oid_number` closure: ids of length 32 have their trailing
8 characters parsed as base-16 (panicking — `none` — when that fails); any
other length yields 0 (covers the literal `sys.catalog.uuid` id). -/
def object_oid_number (oid : String) : Option Nat :=
  if oid.length = 32 then from_str_radix_16 (oid.data.drop 24)
  else some 0

/-! ## Diff record types

One change record per entity kind: a "first" and a "second" value set with
every field defaulting to the empty string (Rust `Default::default()`). -/

/-- Change record for a keyspace (database). -/
structure KeyspaceDiff where
  first_keyspace_name : String := ""
  first_keyspace_type : String := ""
  second_keyspace_name : String := ""
  second_keyspace_type : String := ""
deriving DecidableEq

/-- Change record for a table. -/
structure TablesDiff where
  first_keyspace_id : String := ""
  first_table_name : String := ""
  first_state : String := ""
  second_keyspace_id : String := ""
  second_table_name : String := ""
  second_state : String := ""
deriving DecidableEq

/-- Change record for a tablet (shard). -/
structure TabletsDiff where
  first_table_id : String := ""
  first_state : String := ""
  first_leader : String := ""
  second_table_id : String := ""
  second_state : String := ""
  second_leader : String := ""
deriving DecidableEq

/-- Change record for a replica. -/
structure ReplicasDiff where
  first_addr : String := ""
  first_replica_type : String := ""
  second_addr : String := ""
  second_replica_type : String := ""
deriving DecidableEq

/-- The diff engine's state: `master_found` plus the four `BTreeMap`s,
modelled as association lists. -/
structure EntitiesDiff where
  master_found : Bool := false
  btreekeyspacediff : List (String × KeyspaceDiff) := []
  btreetablesdiff : List (String × TablesDiff) := []
  btreetabletsdiff : List (String × TabletsDiff) := []
  btreereplicasdiff : List ((String × String) × ReplicasDiff) := []
deriving DecidableEq

/-- `EntitiesDiff::new()` = `Default::default()`. -/
def EntitiesDiff.new : EntitiesDiff := {}

/-- `error!` log calls made by the engine, by site. -/
inductive LogError where
  | dupKeyspace (id : String)
  | dupTable (id : String)
  | dupTablet (id : String)
  | dupReplica (id : String × String)
  | ysqlReappeared (id : String) (second_count : Nat)
deriving DecidableEq

/-! ## Association-list model of `BTreeMap` -/

/-- Does the map contain key `k`? -/
def containsKey [DecidableEq K] (m : List (K × V)) (k : K) : Bool :=
  m.any (fun p => p.1 = k)

/-- Value stored at key `k`, if any (`BTreeMap::get`). -/
def lookupKey [DecidableEq K] (m : List (K × V)) (k : K) : Option V :=
  (m.find? (fun p => p.1 = k)).map (fun p => p.2)

/-- `m.entry(k).and_modify(modify).or_insert(ins)`. -/
def btreeEntry [DecidableEq K] (m : List (K × V)) (k : K) (modify : V → V)
    (ins : V) : List (K × V) :=
  match m with
  | [] => [(k, ins)]
  | p :: rest =>
    if p.1 = k then (k, modify p.2) :: rest
    else p :: btreeEntry rest k modify ins

/-- First merge pass over one stream of items: a fresh key is inserted via
`mk`; an already-present key only logs a duplicate error (the
`and_modify(|_| error!(..))` of the source changes nothing). -/
def mergeFirst [DecidableEq K] (key : I → K) (mk : I → V) (logd : K → LogError) :
    List (K × V) → List I → List (K × V) × List LogError
  | m, [] => (m, [])
  | m, i :: rest =>
    if containsKey m (key i) then
      let r := mergeFirst key mk logd m rest
      (r.1, logd (key i) :: r.2)
    else
      mergeFirst key mk logd (m ++ [(key i, mk i)]) rest

/-- Second merge pass over one stream of items:
`entry(k).and_modify(upd).or_insert(mkNew)` — a present key has its
second-side fields overwritten, a fresh key is inserted; nothing is logged. -/
def mergeSecond [DecidableEq K] (key : I → K) (upd : I → V → V) (mkNew : I → V) :
    List (K × V) → List I → List (K × V)
  | m, [] => m
  | m, i :: rest =>
    mergeSecond key upd mkNew (btreeEntry m (key i) (upd i) (mkNew i)) rest

/-! ## The merge passes -/

/-- The `(tablet_id, replica)` pairs of one snapshot's tablets, in iteration
order (replicas are nested in tablets in the source). -/
def Entities.replicaStream (e : Entities) : List (String × Replica) :=
  e.tablets.flatMap (fun t => (t.replicas.getD []).map (fun r => (t.tablet_id, r)))

/-- The per-node snapshots whose `hostname_port` equals the master leader
(the `.filter(...)` of both merge passes). -/
def leaderFilter (entities : List Entities) (leader : String) : List Entities :=
  entities.filter (fun e => e.hostname_port = leader)

/-- All keyspaces merged by one pass, in iteration order. -/
def keyspaceStream (entities : List Entities) (leader : String) : List Keyspace :=
  (leaderFilter entities leader).flatMap Entities.keyspaces

/-- All tables merged by one pass, in iteration order. -/
def tableStream (entities : List Entities) (leader : String) : List Table :=
  (leaderFilter entities leader).flatMap Entities.tables

/-- All tablets merged by one pass, in iteration order. -/
def tabletStream (entities : List Entities) (leader : String) : List Tablet :=
  (leaderFilter entities leader).flatMap Entities.tablets

/-- All `(tablet_id, replica)` pairs merged by one pass. -/
def replicaPairStream (entities : List Entities) (leader : String) :
    List (String × Replica) :=
  (leaderFilter entities leader).flatMap Entities.replicaStream

/-- First-side record built from a keyspace row. -/
def mkFirstKeyspace (k : Keyspace) : KeyspaceDiff :=
  { first_keyspace_name := k.keyspace_name
    first_keyspace_type := k.keyspace_type }

/-- First-side record built from a table row. -/
def mkFirstTable (t : Table) : TablesDiff :=
  { first_keyspace_id := t.keyspace_id
    first_table_name := t.table_name
    first_state := t.state }

/-- First-side record built from a tablet row (`leader` unwraps to `""`). -/
def mkFirstTablet (t : Tablet) : TabletsDiff :=
  { first_table_id := t.table_id
    first_state := t.state
    first_leader := t.leader.getD "" }

/-- First-side record built from a `(tablet_id, replica)` pair. -/
def mkFirstReplica (p : String × Replica) : ReplicasDiff :=
  { first_addr := p.2.addr
    first_replica_type := p.2.replica_type }

/-- Overwrite the second-side fields from a keyspace row. -/
def updSecondKeyspace (k : Keyspace) (v : KeyspaceDiff) : KeyspaceDiff :=
  { v with
    second_keyspace_name := k.keyspace_name
    second_keyspace_type := k.keyspace_type }

/-- Overwrite the second-side fields from a table row. -/
def updSecondTable (t : Table) (v : TablesDiff) : TablesDiff :=
  { v with
    second_keyspace_id := t.keyspace_id
    second_table_name := t.table_name
    second_state := t.state }

/-- Overwrite the second-side fields from a tablet row. -/
def updSecondTablet (t : Tablet) (v : TabletsDiff) : TabletsDiff :=
  { v with
    second_table_id := t.table_id
    second_state := t.state
    second_leader := t.leader.getD "" }

/-- Overwrite the second-side fields from a replica pair. -/
def updSecondReplica (p : String × Replica) (v : ReplicasDiff) : ReplicasDiff :=
  { v with
    second_addr := p.2.addr
    second_replica_type := p.2.replica_type }

/-- `EntitiesDiff::first_snapshot`: an empty leader records
`master_found = false` and merges nothing; otherwise the leader-matching
snapshots' four collections are merged into the first-side fields, logging
duplicate identifiers. -/
def EntitiesDiff.first_snapshot (self : EntitiesDiff) (allentities : List Entities)
    (master_leader : String) : EntitiesDiff × List LogError :=
  if master_leader = "" then ({ self with master_found := false }, [])
  else
    let km := mergeFirst Keyspace.keyspace_id mkFirstKeyspace LogError.dupKeyspace
      self.btreekeyspacediff (keyspaceStream allentities master_leader)
    let tm := mergeFirst Table.table_id mkFirstTable LogError.dupTable
      self.btreetablesdiff (tableStream allentities master_leader)
    let tabm := mergeFirst Tablet.tablet_id mkFirstTablet LogError.dupTablet
      self.btreetabletsdiff (tabletStream allentities master_leader)
    let rm := mergeFirst (fun p : String × Replica => (p.1, p.2.server_uuid))
      mkFirstReplica LogError.dupReplica
      self.btreereplicasdiff (replicaPairStream allentities master_leader)
    ({ self with
        master_found := true
        btreekeyspacediff := km.1
        btreetablesdiff := tm.1
        btreetabletsdiff := tabm.1
        btreereplicasdiff := rm.1 },
      km.2 ++ tm.2 ++ tabm.2 ++ rm.2)

/-- `EntitiesDiff::second_snapshot`: an empty leader records
`master_found = false` and merges nothing; otherwise the leader-matching
snapshots' collections overwrite the second-side fields of existing records
or insert fresh second-side-only records.  No duplicate detection exists in
this pass (the source has no `error!` here): a repeated identifier simply
overwrites the second-side fields again. -/
def EntitiesDiff.second_snapshot (self : EntitiesDiff) (allentities : List Entities)
    (master_leader : String) : EntitiesDiff :=
  if master_leader = "" then { self with master_found := false }
  else
    { self with
      master_found := true
      btreekeyspacediff := mergeSecond Keyspace.keyspace_id updSecondKeyspace
        (fun k => updSecondKeyspace k {})
        self.btreekeyspacediff (keyspaceStream allentities master_leader)
      btreetablesdiff := mergeSecond Table.table_id updSecondTable
        (fun t => updSecondTable t {})
        self.btreetablesdiff (tableStream allentities master_leader)
      btreetabletsdiff := mergeSecond Tablet.tablet_id updSecondTablet
        (fun t => updSecondTablet t {})
        self.btreetabletsdiff (tabletStream allentities master_leader)
      btreereplicasdiff := mergeSecond (fun p : String × Replica => (p.1, p.2.server_uuid))
        updSecondReplica (fun p => updSecondReplica p {})
        self.btreereplicasdiff (replicaPairStream allentities master_leader) }

/-! ## The diff view (`EntitiesDiff::print`)

Each `println!` of the source becomes one structured line record; the
colored `+`/`-`/`=` markers become the constructor names.  `[colocated]`
markers are carried as a `Bool`. -/

/-- One output line of the diff view. -/
inductive Line where
  | skip
  | dbAdded (ktype kname id : String) (coloc : Bool)
  | dbRemoved (ktype kname id : String) (coloc : Bool)
  | dbRenamed (ktype oldName newName id : String) (coloc : Bool)
  | tableAdded (ktype kname tname state id : String) (coloc : Bool)
  | tableRemoved (ktype kname tname state id : String) (coloc : Bool)
  | tableModified (ktype kname oldName newName oldState newState id : String)
      (coloc : Bool)
  | tabletAdded (ktype kname tname id state leaderAddr : String)
  | tabletRemoved (ktype kname tname id state leaderAddr : String)
  | tabletModified (ktype kname tname id oldState newState oldLeaderAddr
      newLeaderAddr : String)
  | replicaAdded (addr ktype kname tname tabletId rtype : String)
  | replicaRemoved (addr ktype kname tname tabletId rtype : String)
  | replicaModified (oldAddr newAddr ktype kname tname tabletId oldType
      newType : String)
deriving DecidableEq

/-- The keyspace-map loop body of `EntitiesDiff::print` for one entry,
returning the printed lines and the `error!` calls made.
With identical name/type on both sides a `ysql` keyspace is further
classified by its live table counts on each side; otherwise the record is
classified added / removed / renamed by which side is empty. -/
def renderKeyspaceEntry (self : EntitiesDiff) (keyspace_id : String)
    (row : KeyspaceDiff) : List Line × List LogError :=
  if row.first_keyspace_name = row.second_keyspace_name
      ∧ row.first_keyspace_type = row.second_keyspace_type then
    if row.second_keyspace_type = "ysql" then
      let first_snapshot_table_count := (self.btreetablesdiff.filter
        (fun q => q.2.first_keyspace_id == keyspace_id)).length
      let second_snapshot_table_count := (self.btreetablesdiff.filter
        (fun q => q.2.second_keyspace_id == keyspace_id)).length
      if (first_snapshot_table_count > 0 ∧ second_snapshot_table_count > 0)
          ∨ (first_snapshot_table_count = 0 ∧ second_snapshot_table_count = 0) then
        ([], [])
      else if first_snapshot_table_count > 0 ∧ second_snapshot_table_count = 0 then
        let coloc := (self.btreetabletsdiff.any
            (fun q => q.2.first_table_id == keyspace_id ++ ".colocated.parent.uuid"))
          && (row.first_keyspace_type == "ysql")
        ([Line.dbRemoved row.first_keyspace_type row.first_keyspace_name
            keyspace_id coloc], [])
      else
        ([], [LogError.ysqlReappeared keyspace_id second_snapshot_table_count])
    else
      ([], [])
  else if row.first_keyspace_name = "" ∧ row.first_keyspace_type = "" then
    let coloc := (self.btreetabletsdiff.any
        (fun q => q.2.second_table_id == keyspace_id ++ ".colocated.parent.uuid"))
      && (row.second_keyspace_type == "ysql")
    ([Line.dbAdded row.second_keyspace_type row.second_keyspace_name
        keyspace_id coloc], [])
  else if row.second_keyspace_name = "" ∧ row.second_keyspace_type = "" then
    let coloc := (self.btreetabletsdiff.any
        (fun q => q.2.first_table_id == keyspace_id ++ ".colocated.parent.uuid"))
      && (row.first_keyspace_type == "ysql")
    ([Line.dbRemoved row.first_keyspace_type row.first_keyspace_name
        keyspace_id coloc], [])
  else
    let coloc := (self.btreetabletsdiff.any
        (fun q => q.2.first_table_id == keyspace_id ++ ".colocated.parent.uuid"))
      && (row.first_keyspace_type == "ysql")
    ([Line.dbRenamed row.first_keyspace_type row.first_keyspace_name
        row.second_keyspace_name keyspace_id coloc], [])

/-- The keyspace-map loop of `EntitiesDiff::print` (lines and errors, in
iteration order). -/
def printKeyspaces (self : EntitiesDiff) : List Line × List LogError :=
  (self.btreekeyspacediff.flatMap (fun p => (renderKeyspaceEntry self p.1 p.2).1),
   self.btreekeyspacediff.flatMap (fun p => (renderKeyspaceEntry self p.1 p.2).2))

/-- The table-map loop body of `EntitiesDiff::print` for one entry.  Added
and removed records are suppressed when the decoded object number is below
16384 and the populated side's keyspace id resolves in the engine's keyspace
map to type `ysql` (catalog-table churn); the decode `unwrap` makes this
branch fallible.  In the modified branch the decode is only reached when the
resolved first-side keyspace type is `ysql` (Rust `&&` short-circuit). -/
def renderTableEntry (self : EntitiesDiff) (table_id : String)
    (row : TablesDiff) : Option (List Line) :=
  if row.first_keyspace_id = row.second_keyspace_id
      ∧ row.first_table_name = row.second_table_name
      ∧ row.first_state = row.second_state then
    some []
  else if row.first_table_name = "" ∧ row.first_state = ""
      ∧ row.first_keyspace_id = "" then
    match object_oid_number table_id with
    | none => none
    | some oid =>
      if oid < 16384
          ∧ ((lookupKey self.btreekeyspacediff row.second_keyspace_id).map
            KeyspaceDiff.second_keyspace_type).getD "" = "ysql" then
        some []
      else
        let ktype := ((lookupKey self.btreekeyspacediff row.second_keyspace_id).map
          KeyspaceDiff.second_keyspace_type).getD ""
        let coloc := (ktype == "ysql") && decide (16384 ≤ oid)
          && !(self.btreetabletsdiff.any (fun q => q.2.second_table_id == table_id))
        some [Line.tableAdded ktype
          (((lookupKey self.btreekeyspacediff row.second_keyspace_id).map
            KeyspaceDiff.second_keyspace_name).getD "")
          row.second_table_name row.second_state table_id coloc]
  else if row.second_table_name = "" ∧ row.second_state = ""
      ∧ row.second_keyspace_id = "" then
    match object_oid_number table_id with
    | none => none
    | some oid =>
      if oid < 16384
          ∧ ((lookupKey self.btreekeyspacediff row.first_keyspace_id).map
            KeyspaceDiff.first_keyspace_type).getD "" = "ysql" then
        some []
      else
        let ktype := ((lookupKey self.btreekeyspacediff row.first_keyspace_id).map
          KeyspaceDiff.first_keyspace_type).getD ""
        let coloc := (ktype == "ysql") && decide (16384 ≤ oid)
          && !(self.btreetabletsdiff.any (fun q => q.2.first_table_id == table_id))
        some [Line.tableRemoved ktype
          (((lookupKey self.btreekeyspacediff row.first_keyspace_id).map
            KeyspaceDiff.first_keyspace_name).getD "")
          row.first_table_name row.first_state table_id coloc]
  else
    let ktype := ((lookupKey self.btreekeyspacediff row.first_keyspace_id).map
      KeyspaceDiff.first_keyspace_type).getD ""
    let kname := ((lookupKey self.btreekeyspacediff row.first_keyspace_id).map
      KeyspaceDiff.first_keyspace_name).getD ""
    if ktype = "ysql" then
      match object_oid_number table_id with
      | none => none
      | some oid =>
        let coloc := decide (16384 ≤ oid)
          && !(self.btreetabletsdiff.any (fun q => q.2.first_table_id == table_id))
        some [Line.tableModified ktype kname row.first_table_name
          row.second_table_name row.first_state row.second_state table_id coloc]
    else
      some [Line.tableModified ktype kname row.first_table_name
        row.second_table_name row.first_state row.second_state table_id false]

/-- Fold a fallible per-item renderer over a list, aborting (as a panic
does) at the first failure. -/
def collectM (f : α → Option (List β)) : List α → Option (List β)
  | [] => some []
  | x :: xs => (f x).bind (fun ys => (collectM f xs).map (fun zs => ys ++ zs))

/-- The table-map loop of `EntitiesDiff::print`. -/
def printTables (self : EntitiesDiff) : Option (List Line) :=
  collectM (fun p => renderTableEntry self p.1 p.2) self.btreetablesdiff

/-- The tablet-map loop body of `EntitiesDiff::print` for one entry.  The
owning table / keyspace / leader address are resolved purely through the
engine's own change-record maps. -/
def renderTabletEntry (self : EntitiesDiff) (tablet_id : String)
    (row : TabletsDiff) : List Line :=
  if row.first_table_id = row.second_table_id
      ∧ row.first_state = row.second_state
      ∧ row.first_leader = row.second_leader then
    []
  else if row.first_table_id = "" ∧ row.first_state = ""
      ∧ row.first_leader = "" then
    [Line.tabletAdded
      (((lookupKey self.btreetablesdiff row.second_table_id).map (fun r =>
        ((lookupKey self.btreekeyspacediff r.second_keyspace_id).map
          KeyspaceDiff.second_keyspace_type).getD "")).getD "")
      (((lookupKey self.btreetablesdiff row.second_table_id).map (fun r =>
        ((lookupKey self.btreekeyspacediff r.second_keyspace_id).map
          KeyspaceDiff.second_keyspace_name).getD "")).getD "")
      (((lookupKey self.btreetablesdiff row.second_table_id).map
        TablesDiff.second_table_name).getD "")
      tablet_id row.second_state
      (((lookupKey self.btreereplicasdiff (tablet_id, row.second_leader)).map
        ReplicasDiff.second_addr).getD "")]
  else if row.second_table_id = "" ∧ row.second_state = ""
      ∧ row.second_leader = "" then
    [Line.tabletRemoved
      (((lookupKey self.btreetablesdiff row.first_table_id).map (fun r =>
        ((lookupKey self.btreekeyspacediff r.first_keyspace_id).map
          KeyspaceDiff.first_keyspace_type).getD "")).getD "")
      (((lookupKey self.btreetablesdiff row.first_table_id).map (fun r =>
        ((lookupKey self.btreekeyspacediff r.first_keyspace_id).map
          KeyspaceDiff.first_keyspace_name).getD "")).getD "")
      (((lookupKey self.btreetablesdiff row.first_table_id).map
        TablesDiff.first_table_name).getD "")
      tablet_id row.first_state
      (((lookupKey self.btreereplicasdiff (tablet_id, row.first_leader)).map
        ReplicasDiff.first_addr).getD "")]
  else
    [Line.tabletModified
      (((lookupKey self.btreetablesdiff row.second_table_id).map (fun r =>
        ((lookupKey self.btreekeyspacediff r.second_keyspace_id).map
          KeyspaceDiff.second_keyspace_type).getD "")).getD "")
      (((lookupKey self.btreetablesdiff row.second_table_id).map (fun r =>
        ((lookupKey self.btreekeyspacediff r.second_keyspace_id).map
          KeyspaceDiff.second_keyspace_name).getD "")).getD "")
      (((lookupKey self.btreetablesdiff row.second_table_id).map
        TablesDiff.second_table_name).getD "")
      tablet_id row.first_state row.second_state
      (((lookupKey self.btreereplicasdiff (tablet_id, row.first_leader)).map
        ReplicasDiff.first_addr).getD "")
      (((lookupKey self.btreereplicasdiff (tablet_id, row.second_leader)).map
        ReplicasDiff.second_addr).getD "")]

/-- The tablet-map loop of `EntitiesDiff::print`. -/
def printTablets (self : EntitiesDiff) : List Line :=
  self.btreetabletsdiff.flatMap (fun p => renderTabletEntry self p.1 p.2)

/-- The replica-map loop body of `EntitiesDiff::print` for one entry. -/
def renderReplicaEntry (self : EntitiesDiff) (k : String × String)
    (row : ReplicasDiff) : List Line :=
  if row.first_replica_type = row.second_replica_type
      ∧ row.first_addr = row.second_addr then
    []
  else if row.first_replica_type = "" ∧ row.first_addr = "" then
    [Line.replicaAdded row.second_addr
      (((lookupKey self.btreetabletsdiff k.1).map (fun tablet =>
        ((lookupKey self.btreetablesdiff tablet.second_table_id).map (fun table =>
          ((lookupKey self.btreekeyspacediff table.second_keyspace_id).map
            KeyspaceDiff.second_keyspace_type).getD "")).getD "")).getD "")
      (((lookupKey self.btreetabletsdiff k.1).map (fun tablet =>
        ((lookupKey self.btreetablesdiff tablet.second_table_id).map (fun table =>
          ((lookupKey self.btreekeyspacediff table.second_keyspace_id).map
            KeyspaceDiff.second_keyspace_name).getD "")).getD "")).getD "")
      (((lookupKey self.btreetabletsdiff k.1).map (fun tablet =>
        ((lookupKey self.btreetablesdiff tablet.second_table_id).map
          TablesDiff.second_table_name).getD "")).getD "")
      k.1 row.second_replica_type]
  else if row.second_replica_type = "" ∧ row.second_addr = "" then
    [Line.replicaRemoved row.first_addr
      (((lookupKey self.btreetabletsdiff k.1).map (fun tablet =>
        ((lookupKey self.btreetablesdiff tablet.first_table_id).map (fun table =>
          ((lookupKey self.btreekeyspacediff table.first_keyspace_id).map
            KeyspaceDiff.first_keyspace_type).getD "")).getD "")).getD "")
      (((lookupKey self.btreetabletsdiff k.1).map (fun tablet =>
        ((lookupKey self.btreetablesdiff tablet.first_table_id).map (fun table =>
          ((lookupKey self.btreekeyspacediff table.first_keyspace_id).map
            KeyspaceDiff.first_keyspace_name).getD "")).getD "")).getD "")
      (((lookupKey self.btreetabletsdiff k.1).map (fun tablet =>
        ((lookupKey self.btreetablesdiff tablet.first_table_id).map
          TablesDiff.first_table_name).getD "")).getD "")
      k.1 row.first_replica_type]
  else
    [Line.replicaModified row.first_addr row.second_addr
      (((lookupKey self.btreetabletsdiff k.1).map (fun tablet =>
        ((lookupKey self.btreetablesdiff tablet.second_table_id).map (fun table =>
          ((lookupKey self.btreekeyspacediff table.second_keyspace_id).map
            KeyspaceDiff.second_keyspace_type).getD "")).getD "")).getD "")
      (((lookupKey self.btreetabletsdiff k.1).map (fun tablet =>
        ((lookupKey self.btreetablesdiff tablet.second_table_id).map (fun table =>
          ((lookupKey self.btreekeyspacediff table.second_keyspace_id).map
            KeyspaceDiff.second_keyspace_name).getD "")).getD "")).getD "")
      (((lookupKey self.btreetabletsdiff k.1).map (fun tablet =>
        ((lookupKey self.btreetablesdiff tablet.second_table_id).map
          TablesDiff.second_table_name).getD "")).getD "")
      k.1 row.first_replica_type row.second_replica_type]

/-- The replica-map loop of `EntitiesDiff::print`. -/
def printReplicas (self : EntitiesDiff) : List Line :=
  self.btreereplicasdiff.flatMap (fun p => renderReplicaEntry self p.1 p.2)

/-- `EntitiesDiff::print`: with no master leader found only the skip message
is printed; otherwise the four map loops run in order.  (The commented-out
`is_system_keyspace` suppression of the source is absent here just as its
effect is absent there.) -/
def EntitiesDiff.print (self : EntitiesDiff) : Option (List Line × List LogError) :=
  if self.master_found = false then some ([Line.skip], [])
  else
    match printTables self with
    | none => none
    | some tl =>
      some ((printKeyspaces self).1 ++ tl ++ printTablets self ++ printReplicas self,
        (printKeyspaces self).2)

/-! ## Stored-snapshot diff entry point -/

/-- Modelled from the spec: the snapshot store and leader resolution are
external collaborators (spec §6) whose code is outside the provided source —
`read(snapshot_number) -> list<Topology>` and
`resolve_leader(snapshots) -> hostname_or_empty`.  They are passed in as
total functions (the success path of the `?`-propagated reads). -/
structure SnapshotStore where
  read_entities : String → List Entities
  return_leader : String → String

/-- `EntitiesDiff::snapshot_diff`: builds a fresh engine, merges the begin
snapshot's entities as the first side and the end snapshot's entities as the
second side.  The source resolves the master leader for BOTH sides from
`begin_snapshot` (line 608 passes `begin_snapshot` to
`return_leader_snapshot` again), which this embedding reproduces. -/
def EntitiesDiff.snapshot_diff (store : SnapshotStore)
    (begin_snapshot end_snapshot : String) : EntitiesDiff × List LogError :=
  let entitiesdiff := EntitiesDiff.new
  let r1 := entitiesdiff.first_snapshot (store.read_entities begin_snapshot)
    (store.return_leader begin_snapshot)
  (r1.1.second_snapshot (store.read_entities end_snapshot)
    (store.return_leader begin_snapshot), r1.2)

/-! ## The live view (`AllEntities::print`)

The regex filters of the source are modelled as abstract predicates
`String → Bool` (the regex engine is an external collaborator); colors and
the dead-node / under-replication annotations are carried as structured
fields. -/

/-- One replica as shown in a live `Replicas: (...)` line. -/
structure ReplicaInfo where
  addr : String
  replica_type : String
  isLeader : Bool
  dead : Bool
deriving DecidableEq

/-- Replica descriptor: leader marker from the tablet's `leader` field
(unwrapped to `""`), dead marker from the health-check dead-node set. -/
def mkReplicaInfo (dead_nodes : List String) (leader : Option String)
    (r : Replica) : ReplicaInfo :=
  { addr := r.addr
    replica_type := r.replica_type
    isLeader := r.server_uuid == leader.getD ""
    dead := dead_nodes.any (fun dead_server => dead_server == r.server_uuid) }

/-- The fixed allow-list of well-known system database identifiers
(`is_system_keyspace` in `AllEntities::print`). -/
def is_system_keyspace (keyspace : String) : Bool :=
  keyspace == "00000000000000000000000000000001"
  || keyspace == "00000000000000000000000000000002"
  || keyspace == "00000000000000000000000000000003"
  || keyspace == "00000001000030008000000000000000"
  || keyspace == "000033e5000030008000000000000000"

/-- One output line of the live view.  `host` is the hostname prepended when
details are enabled; `kid` is the keyspace id the row belongs to. -/
inductive LiveLine where
  | keyspace (host : Option String) (ktype kname kid : String) (coloc : Bool)
  | keyspaceTablet (host : Option String) (ktype kname kid tabletId state : String)
      (underRepl : Bool)
  | keyspaceReplicas (host : Option String) (kid tabletId : String)
      (reps : List ReplicaInfo)
  | object (host : Option String) (ktype kname kid tname state tableId : String)
      (coloc : Bool)
  | objectTablet (host : Option String) (ktype kname kid tname tabletId state : String)
      (underRepl : Bool)
  | objectReplicas (host : Option String) (kid tableId tabletId : String)
      (reps : List ReplicaInfo)
deriving DecidableEq

/-- The keyspace id a live line belongs to. -/
def LiveLine.kid : LiveLine → String
  | .keyspace _ _ _ kid _ => kid
  | .keyspaceTablet _ _ _ kid _ _ _ => kid
  | .keyspaceReplicas _ kid _ _ => kid
  | .object _ _ _ kid _ _ _ _ => kid
  | .objectTablet _ _ _ kid _ _ _ _ => kid
  | .objectReplicas _ kid _ _ _ => kid

/-- The keyspace loop body of `AllEntities::print` for one keyspace row:
system keyspaces are skipped without details; a `ysql` keyspace with at
least one live table prints a keyspace line plus, when colocated, the
colocation-root tablet and replica lines; a non-`ysql` keyspace prints a
plain keyspace line; a `ysql` keyspace with zero tables (dropped) prints
nothing. -/
def renderLiveKeyspace (e : Entities) (details_enable : Bool)
    (dead_nodes under_replicated_tablets : List String) (row : Keyspace) :
    List LiveLine :=
  let host : Option String := if details_enable then some e.hostname_port else none
  if ¬details_enable ∧ is_system_keyspace row.keyspace_id then []
  else if row.keyspace_type = "ysql"
      ∧ 0 < (e.tables.filter (fun r => r.keyspace_id == row.keyspace_id)).length then
    let coloc := e.tablets.any
      (fun r => r.table_id == row.keyspace_id ++ ".colocated.parent.uuid")
    LiveLine.keyspace host row.keyspace_type row.keyspace_name row.keyspace_id coloc ::
    (if coloc then
      (e.tablets.filter
        (fun r => r.table_id == row.keyspace_id ++ ".colocated.parent.uuid")).flatMap
        (fun tablet =>
          [LiveLine.keyspaceTablet host row.keyspace_type row.keyspace_name
            row.keyspace_id tablet.tablet_id tablet.state
            (under_replicated_tablets.any (fun r => r == tablet.tablet_id)),
          LiveLine.keyspaceReplicas host row.keyspace_id tablet.tablet_id
            ((tablet.replicas.getD []).map (mkReplicaInfo dead_nodes tablet.leader))])
    else [])
  else if row.keyspace_type ≠ "ysql" then
    [LiveLine.keyspace host row.keyspace_type row.keyspace_name row.keyspace_id false]
  else []

/-- The table loop body of `AllEntities::print` for one table row: system
keyspaces skipped without details, then the table-name filter, then the
catalog suppression `object_oid_number(id) < 16384 && !details &&
keyspaces.find(..).map(type).unwrap() == "ysql"` — whose `unwrap` panics on
a dangling keyspace id and is only reached (Rust `&&` short-circuit) when
the first two conjuncts hold; surviving rows print an object line plus one
tablet and one replica line per linked tablet. -/
def renderLiveTable (e : Entities) (table_name_filter : String → Bool)
    (details_enable : Bool) (dead_nodes under_replicated_tablets : List String)
    (row : Table) : Option (List LiveLine) :=
  let host : Option String := if details_enable then some e.hostname_port else none
  if is_system_keyspace row.keyspace_id ∧ ¬details_enable then some []
  else if ¬table_name_filter row.table_name then some []
  else
    match object_oid_number row.table_id with
    | none => none
    | some oid =>
      let suppress : Option Bool :=
        if oid < 16384 ∧ details_enable = false then
          match e.keyspaces.find? (fun r => r.keyspace_id == row.keyspace_id) with
          | none => none
          | some ks => some (ks.keyspace_type == "ysql")
        else some false
      match suppress with
      | none => none
      | some true => some []
      | some false =>
        let ktype := ((e.keyspaces.find?
          (fun r => r.keyspace_id == row.keyspace_id)).map Keyspace.keyspace_type).getD ""
        let kname := ((e.keyspaces.find?
          (fun r => r.keyspace_id == row.keyspace_id)).map Keyspace.keyspace_name).getD ""
        let coloc := (ktype == "ysql") && decide (16384 ≤ oid)
          && !(e.tablets.any (fun r => r.table_id == row.table_id))
        some (LiveLine.object host ktype kname row.keyspace_id row.table_name
            row.state row.table_id coloc ::
          (e.tablets.filter (fun r => r.table_id == row.table_id)).flatMap
            (fun tablet =>
              [LiveLine.objectTablet host ktype kname row.keyspace_id row.table_name
                tablet.tablet_id tablet.state
                (under_replicated_tablets.any (fun r => r == tablet.tablet_id)),
              LiveLine.objectReplicas host row.keyspace_id row.table_id
                tablet.tablet_id
                ((tablet.replicas.getD []).map (mkReplicaInfo dead_nodes tablet.leader))]))

/-- The per-entity body of `AllEntities::print`: without details only the
leader's snapshot is rendered; with details the hostname filter applies;
then the keyspace loop followed by the table loop. -/
def renderLiveEntity (table_name_filter hostname_filter : String → Bool)
    (details_enable : Bool) (leader_hostname : String)
    (dead_nodes under_replicated_tablets : List String) (e : Entities) :
    Option (List LiveLine) :=
  if ¬details_enable ∧ e.hostname_port ≠ leader_hostname then some []
  else if details_enable ∧ ¬hostname_filter e.hostname_port then some []
  else
    match collectM (renderLiveTable e table_name_filter details_enable dead_nodes
        under_replicated_tablets) e.tables with
    | none => none
    | some tlines =>
      some ((e.keyspaces.flatMap (renderLiveKeyspace e details_enable dead_nodes
        under_replicated_tablets)) ++ tlines)

/-- `AllEntities::print` (the live topology view) over all collected
per-node snapshots. -/
def AllEntities.print (entities : List Entities)
    (table_name_filter : String → Bool) (details_enable : Bool)
    (leader_hostname : String) (hostname_filter : String → Bool)
    (dead_nodes under_replicated_tablets : List String) :
    Option (List LiveLine) :=
  collectM (renderLiveEntity table_name_filter hostname_filter details_enable
    leader_hostname dead_nodes under_replicated_tablets) entities

/-! ## Classification helpers and swapped records

`swap` exchanges the first and second value sets of a change record; the
`...Unchanged` predicates are the per-kind "nothing changed" tests of
`EntitiesDiff::print`. -/

/-- Exchange the two value sets of a keyspace record. -/
def KeyspaceDiff.swap (r : KeyspaceDiff) : KeyspaceDiff :=
  { first_keyspace_name := r.second_keyspace_name
    first_keyspace_type := r.second_keyspace_type
    second_keyspace_name := r.first_keyspace_name
    second_keyspace_type := r.first_keyspace_type }

/-- Exchange the two value sets of a table record. -/
def TablesDiff.swap (r : TablesDiff) : TablesDiff :=
  { first_keyspace_id := r.second_keyspace_id
    first_table_name := r.second_table_name
    first_state := r.second_state
    second_keyspace_id := r.first_keyspace_id
    second_table_name := r.first_table_name
    second_state := r.first_state }

/-- Exchange the two value sets of a tablet record. -/
def TabletsDiff.swap (r : TabletsDiff) : TabletsDiff :=
  { first_table_id := r.second_table_id
    first_state := r.second_state
    first_leader := r.second_leader
    second_table_id := r.first_table_id
    second_state := r.first_state
    second_leader := r.first_leader }

/-- Exchange the two value sets of a replica record. -/
def ReplicasDiff.swap (r : ReplicasDiff) : ReplicasDiff :=
  { first_addr := r.second_addr
    first_replica_type := r.second_replica_type
    second_addr := r.first_addr
    second_replica_type := r.first_replica_type }

/-- The keyspace "identical fields" test of the diff print. -/
def keyspaceUnchanged (r : KeyspaceDiff) : Prop :=
  r.first_keyspace_name = r.second_keyspace_name
  ∧ r.first_keyspace_type = r.second_keyspace_type

/-- The table "identical fields" test of the diff print. -/
def tableUnchanged (r : TablesDiff) : Prop :=
  r.first_keyspace_id = r.second_keyspace_id
  ∧ r.first_table_name = r.second_table_name
  ∧ r.first_state = r.second_state

/-- The tablet "identical fields" test of the diff print. -/
def tabletUnchanged (r : TabletsDiff) : Prop :=
  r.first_table_id = r.second_table_id
  ∧ r.first_state = r.second_state
  ∧ r.first_leader = r.second_leader

/-- The replica "identical fields" test of the diff print. -/
def replicaUnchanged (r : ReplicasDiff) : Prop :=
  r.first_replica_type = r.second_replica_type
  ∧ r.first_addr = r.second_addr

/-! ## Concrete instances used by witnesses and counterexamples -/

/-- A one-keyspace snapshot tagged with node `h`. -/
def wEntityA : Entities :=
  { keyspaces := [⟨"k1", "a", "ycql"⟩], tables := [], tablets := []
    hostname_port := "h" }

/-- A one-keyspace snapshot tagged with node `h2`. -/
def wEntityB : Entities :=
  { keyspaces := [⟨"k1", "b", "ycql"⟩], tables := [], tablets := []
    hostname_port := "h2" }

/-- A snapshot carrying the same keyspace id twice with different names. -/
def wEntityDup : Entities :=
  { keyspaces := [⟨"k1", "a", "ysql"⟩, ⟨"k1", "b", "ysql"⟩]
    tables := [], tablets := [], hostname_port := "h" }

/-- A snapshot with one `ysql` keyspace, one user table and one tablet with
a single voter replica. -/
def wEntityFull : Entities :=
  { keyspaces := [⟨"k1", "db", "ysql"⟩]
    tables := [⟨"00000001000030008000000000004e21", "k1", "t", "RUNNING"⟩]
    tablets := [⟨"00000001000030008000000000004e21", "tab1", "RUNNING",
      some "u1", some [⟨"VOTER", "u1", "a:1"⟩]⟩]
    hostname_port := "h" }

/-- A system-keyspace-only snapshot tagged with node `h`. -/
def wEntitySys : Entities :=
  { keyspaces := [⟨"00000000000000000000000000000001", "system", "ycql"⟩]
    tables := [], tablets := [], hostname_port := "h" }

/-- Begin-side stored snapshot: node `h1` sees keyspace `k1` named `W`. -/
def wE1h1 : Entities :=
  { keyspaces := [⟨"k1", "W", "ycql"⟩], tables := [], tablets := []
    hostname_port := "h1" }

/-- End-side stored snapshot as seen from node `h1`: `k1` named `X`. -/
def wE2h1 : Entities :=
  { keyspaces := [⟨"k1", "X", "ycql"⟩], tables := [], tablets := []
    hostname_port := "h1" }

/-- End-side stored snapshot as seen from node `h2`: `k1` named `Y`. -/
def wE2h2 : Entities :=
  { keyspaces := [⟨"k1", "Y", "ycql"⟩], tables := [], tablets := []
    hostname_port := "h2" }

/-- A snapshot store whose begin snapshot `1` has leader `h1` and whose end
snapshot `2` has leader `h2`, with the two nodes disagreeing about the name
of keyspace `k1` in snapshot `2`. -/
def wStore : SnapshotStore :=
  { read_entities := fun n => if n = "1" then [wE1h1] else [wE2h1, wE2h2]
    return_leader := fun n => if n = "1" then "h1" else "h2" }

/-- An engine state holding a `ysql` keyspace with identical fields on both
sides and one table populated only on the first side. -/
def wDiffC1 : EntitiesDiff :=
  { master_found := true
    btreekeyspacediff := [("k1",
      { first_keyspace_name := "db"
        first_keyspace_type := "ysql"
        second_keyspace_name := "db"
        second_keyspace_type := "ysql" })]
    btreetablesdiff := [("t1",
      { first_keyspace_id := "k1"
        first_table_name := "t"
        first_state := "RUNNING" })] }

/-- An engine state resolving keyspace `k1` to type `ysql` on both sides. -/
def wDiffC6 : EntitiesDiff :=
  { master_found := true
    btreekeyspacediff := [("k1",
      { first_keyspace_name := "db"
        first_keyspace_type := "ysql"
        second_keyspace_name := "db"
        second_keyspace_type := "ysql" })] }

/-- An added-table record under keyspace `k1`. -/
def wRowC6 : TablesDiff :=
  { second_keyspace_id := "k1"
    second_table_name := "t"
    second_state := "RUNNING" }

/-- An engine state whose only record is an added system keyspace. -/
def wDiffSys : EntitiesDiff :=
  { master_found := true
    btreekeyspacediff := [("00000000000000000000000000000001",
      { second_keyspace_name := "system"
        second_keyspace_type := "ycql" })] }

/-- An engine state with one fully populated record in every map. -/
def wDiffPre : EntitiesDiff :=
  { master_found := true
    btreekeyspacediff := [("k0",
      { first_keyspace_name := "n0"
        first_keyspace_type := "ycql"
        second_keyspace_name := "n1"
        second_keyspace_type := "ycql" })]
    btreetablesdiff := [("t0",
      { first_keyspace_id := "k0"
        first_table_name := "tn0"
        first_state := "RUNNING"
        second_keyspace_id := "k0"
        second_table_name := "tn1"
        second_state := "RUNNING" })]
    btreetabletsdiff := [("b0",
      { first_table_id := "t0"
        first_state := "RUNNING"
        first_leader := "u0"
        second_table_id := "t0"
        second_state := "RUNNING"
        second_leader := "u1" })]
    btreereplicasdiff := [(("b0", "u0"),
      { first_addr := "a0"
        first_replica_type := "VOTER"
        second_addr := "a1"
        second_replica_type := "VOTER" })] }

/-! ## Supporting lemmas: the decoder -/

theorem hexVal_getD_le (c : Char) : (hexVal c).getD 0 ≤ 15 := by
  unfold hexVal
  split_ifs <;> simp <;> omega

theorem hexNat_go_lt (ds : List Char) :
    ∀ a : Nat,
      List.foldl (fun a c => 16 * a + ((hexVal c).getD 0)) a ds
        < (a + 1) * 16 ^ ds.length := by
  induction ds with
  | nil => intro a; simp
  | cons c ds ih =>
    intro a
    have h1 := ih (16 * a + ((hexVal c).getD 0))
    have hc := hexVal_getD_le c
    have h2 : (16 * a + ((hexVal c).getD 0) + 1) * 16 ^ ds.length
        ≤ (a + 1) * 16 ^ (ds.length + 1) := by
      calc (16 * a + ((hexVal c).getD 0) + 1) * 16 ^ ds.length
          ≤ ((a + 1) * 16) * 16 ^ ds.length :=
            Nat.mul_le_mul_right _ (by omega)
        _ = (a + 1) * 16 ^ (ds.length + 1) := by ring
    simp only [List.foldl_cons, List.length_cons]
    exact lt_of_lt_of_le h1 h2

theorem hexNat_lt (ds : List Char) : hexNat ds < 16 ^ ds.length := by
  simpa [hexNat] using hexNat_go_lt ds 0

theorem from_str_radix_16_all_hex (s : List Char) (hne : s ≠ [])
    (hhx : ∀ c ∈ s, (hexVal c).isSome) (hlen : s.length ≤ 8) :
    from_str_radix_16 s = some (hexNat s) := by
  have hplus : s.head? ≠ some '+' := by
    cases s with
    | nil => simp
    | cons c rest =>
      simp only [List.head?_cons, ne_eq, Option.some.injEq]
      intro hc
      have hmem := hhx c (List.mem_cons_self c rest)
      rw [hc] at hmem
      simp [hexVal] at hmem
  have hall : s.all (fun c => (hexVal c).isSome) = true :=
    List.all_eq_true.mpr (fun c hc => hhx c hc)
  have hlt : hexNat s < 2 ^ 32 := by
    have h1 := hexNat_lt s
    have h16 : (16 : Nat) ^ s.length ≤ 16 ^ 8 :=
      Nat.pow_le_pow_right (by norm_num) hlen
    have h2 : (16 : Nat) ^ 8 = 2 ^ 32 := by norm_num
    omega
  simp only [from_str_radix_16, if_neg hplus]
  rw [if_neg hne, if_pos hall, if_pos hlt]

/-! ## Supporting lemmas: association lists -/

theorem lookupKey_nil [DecidableEq K] (k : K) :
    lookupKey ([] : List (K × V)) k = none := rfl

theorem lookupKey_cons [DecidableEq K] (p : K × V) (m : List (K × V)) (k : K) :
    lookupKey (p :: m) k = if p.1 = k then some p.2 else lookupKey m k := by
  by_cases h : p.1 = k <;> simp [lookupKey, List.find?_cons, h]

theorem containsKey_eq [DecidableEq K] (m : List (K × V)) (k : K) :
    containsKey m k = (lookupKey m k).isSome := by
  induction m with
  | nil => rfl
  | cons p m ih =>
    by_cases h : p.1 = k <;>
      simp only [containsKey, List.any_cons, lookupKey_cons, h] <;>
      simp only [containsKey] at ih <;> simp [ih]

theorem lookupKey_append [DecidableEq K] (m1 m2 : List (K × V)) (k : K) :
    lookupKey (m1 ++ m2) k = (lookupKey m1 k).or (lookupKey m2 k) := by
  simp only [lookupKey, List.find?_append]
  cases List.find? (fun p => decide (p.1 = k)) m1 <;> simp

theorem lookupKey_btreeEntry [DecidableEq K] (m : List (K × V)) (k k' : K)
    (f : V → V) (ins : V) :
    lookupKey (btreeEntry m k f ins) k' =
      if k' = k then some (((lookupKey m k).map f).getD ins)
      else lookupKey m k' := by
  induction m with
  | nil =>
    by_cases h : k' = k
    · subst h; simp [btreeEntry, lookupKey_cons, lookupKey_nil]
    · have h2 : ¬ k = k' := fun hh => h hh.symm
      simp [btreeEntry, lookupKey_cons, lookupKey_nil, h, h2]
  | cons p m ih =>
    by_cases hp : p.1 = k
    · simp only [btreeEntry, if_pos hp]
      by_cases h : k' = k
      · subst h; simp [lookupKey_cons, hp]
      · have h2 : ¬ k = k' := fun hh => h hh.symm
        simp [lookupKey_cons, h, h2, hp]
    · simp only [btreeEntry, if_neg hp]
      by_cases hk : p.1 = k'
      · have hne : ¬ k' = k := fun hh => hp (hk.trans hh)
        simp [lookupKey_cons, hk, hne]
      · simp only [lookupKey_cons, hk, if_neg hk, ih]
        by_cases h : k' = k
        · simp [h, lookupKey_cons, hp]
        · simp [h]

/-! ## Supporting lemmas: the merge passes -/

theorem mergeFirst_lookup [DecidableEq K] (key : I → K) (mk : I → V)
    (logd : K → LogError) (items : List I) :
    ∀ (m : List (K × V)) (k : K),
      lookupKey (mergeFirst key mk logd m items).1 k =
        match lookupKey m k with
        | some v => some v
        | none => (items.find? (fun i => key i = k)).map mk := by
  induction items with
  | nil =>
    intro m k
    simp only [mergeFirst]
    cases lookupKey m k <;> simp
  | cons i rest ih =>
    intro m k
    by_cases hc : containsKey m (key i) = true
    · simp only [mergeFirst, if_pos hc]
      rw [ih m k]
      cases hm : lookupKey m k with
      | some v => simp
      | none =>
        have hne : ¬ key i = k := by
          intro hh
          rw [containsKey_eq, hh, hm] at hc
          simp at hc
        simp [List.find?_cons, hne]
    · simp only [mergeFirst, if_neg hc]
      rw [ih]
      rw [lookupKey_append]
      cases hm : lookupKey m k with
      | some v => simp
      | none =>
        simp only [Option.none_or]
        by_cases hk : key i = k
        · simp [lookupKey_cons, hk, List.find?_cons, lookupKey_nil]
        · simp [lookupKey_cons, hk, List.find?_cons, lookupKey_nil]

theorem mergeFirst_errors_of_contains [DecidableEq K] (key : I → K) (mk : I → V)
    (logd : K → LogError) (items : List I) :
    ∀ (m : List (K × V)) (k : K), containsKey m k = true →
      (∃ i ∈ items, key i = k) →
      logd k ∈ (mergeFirst key mk logd m items).2 := by
  induction items with
  | nil => intro m k _ h; rcases h with ⟨i, hi, _⟩; cases hi
  | cons i rest ih =>
    intro m k hm hex
    by_cases hc : containsKey m (key i) = true
    · simp only [mergeFirst, if_pos hc, List.mem_cons]
      rcases hex with ⟨j, hj, hkey⟩
      rcases List.mem_cons.mp hj with rfl | hjr
      · exact Or.inl (by rw [hkey])
      · exact Or.inr (ih m k hm ⟨j, hjr, hkey⟩)
    · simp only [mergeFirst, if_neg hc]
      rcases hex with ⟨j, hj, hkey⟩
      rcases List.mem_cons.mp hj with rfl | hjr
      · rw [hkey] at hc; exact absurd hm hc
      · refine ih _ k ?_ ⟨j, hjr, hkey⟩
        rw [containsKey_eq, lookupKey_append]
        rw [containsKey_eq] at hm
        cases hv : lookupKey m k with
        | some v => simp
        | none => rw [hv] at hm; simp at hm

theorem mergeFirst_errors_of_two [DecidableEq K] (key : I → K) (mk : I → V)
    (logd : K → LogError) (items : List I) :
    ∀ (m : List (K × V)) (k : K),
      2 ≤ (items.filter (fun i => key i = k)).length →
      logd k ∈ (mergeFirst key mk logd m items).2 := by
  induction items with
  | nil => intro m k h; simp at h
  | cons i rest ih =>
    intro m k h
    by_cases hk : key i = k
    · have hrest : 0 < (rest.filter (fun i => decide (key i = k))).length := by
        simp [List.filter_cons, hk] at h
        omega
      by_cases hc : containsKey m (key i) = true
      · simp only [mergeFirst, if_pos hc, List.mem_cons]
        exact Or.inl (by rw [hk])
      · simp only [mergeFirst, if_neg hc]
        have hex : ∃ j ∈ rest, key j = k := by
          rcases List.exists_mem_of_length_pos hrest with ⟨j, hj⟩
          exact ⟨j, (List.mem_filter.mp hj).1, by
            have := (List.mem_filter.mp hj).2
            simpa using this⟩
        refine mergeFirst_errors_of_contains key mk logd rest _ k ?_ hex
        rw [containsKey_eq, lookupKey_append]
        have hone : lookupKey [(key i, mk i)] k = some (mk i) := by
          simp [lookupKey_cons, hk]
        cases hv : lookupKey m k <;> simp [hone]
    · have h' : 2 ≤ (rest.filter (fun i => key i = k)).length := by
        simpa [List.filter_cons, hk] using h
      by_cases hc : containsKey m (key i) = true
      · simp only [mergeFirst, if_pos hc, List.mem_cons]
        exact Or.inr (ih m k h')
      · simp only [mergeFirst, if_neg hc]
        exact ih _ k h'

theorem mergeSecond_lookup [DecidableEq K] (key : I → K) (upd : I → V → V)
    (dflt : V) (hyp1 : ∀ i j v, upd i (upd j v) = upd i v) (items : List I) :
    ∀ (m : List (K × V)) (k : K),
      lookupKey (mergeSecond key upd (fun i => upd i dflt) m items) k =
        match items.reverse.find? (fun i => key i = k) with
        | none => lookupKey m k
        | some i => some (upd i ((lookupKey m k).getD dflt)) := by
  induction items with
  | nil => intro m k; simp [mergeSecond]
  | cons i rest ih =>
    intro m k
    simp only [mergeSecond]
    rw [ih]
    rw [List.reverse_cons, List.find?_append]
    cases hr : rest.reverse.find? (fun i => decide (key i = k)) with
    | some j =>
      have hor : (some j).or (List.find? (fun i => decide (key i = k)) [i])
          = some j := rfl
      rw [hor, lookupKey_btreeEntry]
      by_cases hk : k = key i
      · rw [if_pos hk]
        subst hk
        cases hv : lookupKey m (key i) <;> simp [hyp1]
      · rw [if_neg hk]
    | none =>
      simp only [Option.none_or]
      by_cases hk : key i = k
      · subst hk
        have hfind : List.find? (fun j => decide (key j = key i)) [i] = some i := by
          simp [List.find?_cons]
        rw [hfind, lookupKey_btreeEntry, if_pos rfl]
        cases lookupKey m (key i) <;> simp
      · have hfind : List.find? (fun j => decide (key j = k)) [i] = none := by
          simp [List.find?_cons, hk]
        rw [hfind, lookupKey_btreeEntry,
          if_neg (fun hh : k = key i => hk hh.symm)]

theorem mergeFirst_disjoint [DecidableEq K] (key : I → K) (mk : I → V)
    (logd : K → LogError) (items : List I) :
    ∀ m : List (K × V), (items.map key).Nodup →
      (∀ i ∈ items, containsKey m (key i) = false) →
      mergeFirst key mk logd m items
        = (m ++ items.map (fun i => (key i, mk i)), []) := by
  induction items with
  | nil => intro m _ _; simp [mergeFirst]
  | cons i rest ih =>
    intro m hnd hdis
    have hc : containsKey m (key i) = false := hdis i (List.mem_cons_self i rest)
    rw [List.map_cons, List.nodup_cons] at hnd
    simp only [mergeFirst, hc]
    rw [ih (m ++ [(key i, mk i)]) hnd.2 ?_]
    · simp
    · intro j hj
      rw [containsKey_eq, lookupKey_append]
      have h1 : lookupKey m (key j) = none := by
        have := hdis j (List.mem_cons_of_mem i hj)
        rw [containsKey_eq] at this
        cases hv : lookupKey m (key j) with
        | some v => rw [hv] at this; simp at this
        | none => rfl
      have hne : ¬ key i = key j :=
        fun hh => hnd.1 (hh ▸ List.mem_map_of_mem key hj)
      rw [h1]
      simp [lookupKey_cons, hne, lookupKey_nil]

theorem mergeSecond_cons_of_ne [DecidableEq K] (key : I → K) (upd : I → V → V)
    (mkNew : I → V) (items : List I) :
    ∀ (k : K) (v : V) (m : List (K × V)), (∀ i ∈ items, key i ≠ k) →
      mergeSecond key upd mkNew ((k, v) :: m) items
        = (k, v) :: mergeSecond key upd mkNew m items := by
  induction items with
  | nil => intro k v m _; simp [mergeSecond]
  | cons i rest ih =>
    intro k v m h
    have hne : key i ≠ k := h i (List.mem_cons_self i rest)
    simp only [mergeSecond, btreeEntry, if_neg (fun hh : k = key i => hne hh.symm)]
    exact ih k v _ (fun j hj => h j (List.mem_cons_of_mem i hj))

theorem mergeSecond_self [DecidableEq K] (key : I → K) (upd : I → V → V)
    (mkNew : I → V) (mk : I → V) (items : List I)
    (hnd : (items.map key).Nodup) :
    mergeSecond key upd mkNew (items.map (fun i => (key i, mk i))) items
      = items.map (fun i => (key i, upd i (mk i))) := by
  induction items with
  | nil => simp [mergeSecond]
  | cons i rest ih =>
    rw [List.map_cons, List.nodup_cons] at hnd
    simp only [List.map_cons, mergeSecond, btreeEntry, if_pos rfl, if_true]
    rw [mergeSecond_cons_of_ne key upd mkNew rest (key i) (upd i (mk i))
      (rest.map (fun i => (key i, mk i)))
      (fun j hj hh => hnd.1 (hh ▸ List.mem_map_of_mem key hj))]
    rw [ih hnd.2]

theorem find?_reverse_of_nodup (key : I → K) (l : List I) (k : K)
    [DecidableEq K] (h : (l.map key).Nodup) :
    l.reverse.find? (fun i => key i = k) = l.find? (fun i => key i = k) := by
  induction l with
  | nil => rfl
  | cons i rest ih =>
    rw [List.reverse_cons, List.find?_append]
    rw [List.map_cons, List.nodup_cons] at h
    by_cases hk : key i = k
    · have hnone : rest.reverse.find? (fun i => decide (key i = k)) = none := by
        rw [List.find?_eq_none]
        intro j hj hdec
        have hkj : key j = k := by simpa using hdec
        exact h.1 ((hk.trans hkj.symm) ▸ List.mem_map_of_mem key
          (List.mem_reverse.mp hj))
      rw [hnone]
      simp [List.find?_cons, hk]
    · rw [ih h.2]
      cases hr : rest.find? (fun i => decide (key i = k)) <;>
        simp [List.find?_cons, hk, hr]

/-! ## Supporting lemmas: rendering -/

theorem collectM_all_nil (f : α → Option (List β)) (xs : List α)
    (h : ∀ x ∈ xs, f x = some []) : collectM f xs = some [] := by
  induction xs with
  | nil => rfl
  | cons x xs ih =>
    rw [collectM, h x (List.mem_cons_self x xs),
      ih (fun y hy => h y (List.mem_cons_of_mem x hy))]
    rfl

theorem collectM_mem (f : α → Option (List β)) (xs : List α) (ls : List β)
    (h : collectM f xs = some ls) :
    ∀ b ∈ ls, ∃ x ∈ xs, ∃ ys, f x = some ys ∧ b ∈ ys := by
  induction xs generalizing ls with
  | nil =>
    intro b hb
    simp only [collectM, Option.some.injEq] at h
    subst h; cases hb
  | cons x xs ih =>
    intro b hb
    rw [collectM] at h
    cases hfx : f x with
    | none => rw [hfx] at h; simp at h
    | some ys =>
      rw [hfx] at h
      cases hcx : collectM f xs with
      | none => rw [hcx] at h; simp at h
      | some zs =>
        rw [hcx] at h
        simp at h
        subst h
        rcases List.mem_append.mp hb with hys | hzs
        · exact ⟨x, List.mem_cons_self x xs, ys, hfx, hys⟩
        · rcases ih zs hcx b hzs with ⟨y, hy, ws, hws, hbw⟩
          exact ⟨y, List.mem_cons_of_mem x hy, ws, hws, hbw⟩

theorem flatMap_all_nil (xs : List α) (f : α → List β)
    (h : ∀ x ∈ xs, f x = []) : xs.flatMap f = [] := by
  simp only [List.flatMap_eq_nil_iff]
  exact h

/-! ## Claim C2: totality of the object-number decoder -/

/-- C2, counterexample: the decoder is NOT total over arbitrary strings —
on the 32-character non-hexadecimal input of all `z`s the trailing-segment
parse has no result (the source's `u32::from_str_radix(..).unwrap()`
panics), instead of any value being returned. -/
theorem C2_counterexample :
    object_oid_number "zzzzzzzzzzzzzzzzzzzzzzzzzzzzzzzz" = none := by decide

/-- C2 (amended): the decoder returns 0 for any string whose length is not
32, and the base-16 value of the trailing 8-character segment for
32-character strings whose trailing segment is hexadecimal; it fails
(panics) on 32-character strings with a non-hexadecimal trailing segment,
so it is total only away from those. -/
theorem C2_amended_decoder (s : String) :
    (s.length ≠ 32 → object_oid_number s = some 0) ∧
    (s.length = 32 → (∀ c ∈ s.data.drop 24, (hexVal c).isSome) →
      object_oid_number s = some (hexNat (s.data.drop 24))) := by
  constructor
  · intro h; simp [object_oid_number, h]
  · intro h hhx
    have hlen32 : s.data.length = 32 := h
    have hlen : (s.data.drop 24).length = 8 := by
      simp [List.length_drop, hlen32]
    have hne : s.data.drop 24 ≠ [] := by
      intro hn; rw [hn] at hlen; cases hlen
    rw [object_oid_number, if_pos h,
      from_str_radix_16_all_hex _ hne hhx (by rw [hlen])]

/-- Witness for the amended C2 at concrete inputs: the literal
`sys.catalog.uuid` id decodes to 0, and a conforming 32-character id
decodes to the value of its trailing segment. -/
theorem C2_amended_witness :
    object_oid_number "sys.catalog.uuid" = some 0 ∧
    object_oid_number "000000010000300080000000000000af" = some 175 := by
  constructor
  · exact (C2_amended_decoder "sys.catalog.uuid").1 (by decide)
  · have h := (C2_amended_decoder "000000010000300080000000000000af").2
      (by decide) (by decide)
    rw [h]; decide

/-! ## Claim C1: classification of type-B keyspaces by live table count -/

/-- C1: for a keyspace record whose name and kind agree on both sides and
whose kind is `ysql` (type B), the diff print classifies by the two live
table counts: both zero or both positive produces no output row; first
positive and second zero produces a Removed row; first zero and second
positive logs an error and produces no output row. -/
theorem C1_keyspace_classification (self : EntitiesDiff) (keyspace_id : String)
    (row : KeyspaceDiff)
    (hname : row.first_keyspace_name = row.second_keyspace_name)
    (htype : row.first_keyspace_type = row.second_keyspace_type)
    (hysql : row.second_keyspace_type = "ysql") :
    ((((self.btreetablesdiff.filter
            (fun q => q.2.first_keyspace_id == keyspace_id)).length = 0
          ∧ (self.btreetablesdiff.filter
            (fun q => q.2.second_keyspace_id == keyspace_id)).length = 0)
        ∨ (0 < (self.btreetablesdiff.filter
            (fun q => q.2.first_keyspace_id == keyspace_id)).length
          ∧ 0 < (self.btreetablesdiff.filter
            (fun q => q.2.second_keyspace_id == keyspace_id)).length)) →
      renderKeyspaceEntry self keyspace_id row = ([], [])) ∧
    ((0 < (self.btreetablesdiff.filter
          (fun q => q.2.first_keyspace_id == keyspace_id)).length
        ∧ (self.btreetablesdiff.filter
          (fun q => q.2.second_keyspace_id == keyspace_id)).length = 0) →
      renderKeyspaceEntry self keyspace_id row =
        ([Line.dbRemoved row.first_keyspace_type row.first_keyspace_name
          keyspace_id
          ((self.btreetabletsdiff.any
            (fun q => q.2.first_table_id == keyspace_id ++ ".colocated.parent.uuid"))
            && (row.first_keyspace_type == "ysql"))], [])) ∧
    (((self.btreetablesdiff.filter
          (fun q => q.2.first_keyspace_id == keyspace_id)).length = 0
        ∧ 0 < (self.btreetablesdiff.filter
          (fun q => q.2.second_keyspace_id == keyspace_id)).length) →
      renderKeyspaceEntry self keyspace_id row =
        ([], [LogError.ysqlReappeared keyspace_id
          (self.btreetablesdiff.filter
            (fun q => q.2.second_keyspace_id == keyspace_id)).length])) := by
  have hand : row.first_keyspace_name = row.second_keyspace_name
      ∧ row.first_keyspace_type = row.second_keyspace_type := ⟨hname, htype⟩
  refine ⟨?_, ?_, ?_⟩ <;> intro hc <;>
    simp only [renderKeyspaceEntry, if_pos hand, if_pos hysql]
  · rw [if_pos (by omega)]
  · rw [if_neg (by omega), if_pos (by omega)]
  · rw [if_neg (by omega), if_neg (by omega)]

/-- Witness for C1 at a concrete engine state: one first-side-only table
under keyspace `k1` yields the Removed row. -/
theorem C1_witness :
    renderKeyspaceEntry wDiffC1 "k1"
        { first_keyspace_name := "db"
          first_keyspace_type := "ysql"
          second_keyspace_name := "db"
          second_keyspace_type := "ysql" } =
      ([Line.dbRemoved "ysql" "db" "k1" false], []) := by
  have h := (C1_keyspace_classification wDiffC1 "k1"
    { first_keyspace_name := "db"
      first_keyspace_type := "ysql"
      second_keyspace_name := "db"
      second_keyspace_type := "ysql" } rfl rfl rfl).2.1 (by decide)
  rw [h]
  decide

/-! ## Claim C6: catalog suppression of Added/Removed table rows -/

/-- C6: for a table record classified Added (resp. Removed), the diff print
suppresses the output row exactly when the decoded object number is below
16384 and the keyspace id recorded on the populated side resolves, in the
engine's own keyspace change map, to kind `ysql` (type B). -/
theorem C6_table_suppression (self : EntitiesDiff) (table_id : String) (row : TablesDiff)
    (oid : Nat) (hdec : object_oid_number table_id = some oid) :
    ((row.first_table_name = "" ∧ row.first_state = "" ∧ row.first_keyspace_id = "") →
      ¬ (row.second_table_name = "" ∧ row.second_state = "" ∧ row.second_keyspace_id = "") →
      (renderTableEntry self table_id row = some [] ↔
        (oid < 16384 ∧ ((lookupKey self.btreekeyspacediff row.second_keyspace_id).map
          KeyspaceDiff.second_keyspace_type).getD "" = "ysql"))) ∧
    ((row.second_table_name = "" ∧ row.second_state = "" ∧ row.second_keyspace_id = "") →
      ¬ (row.first_table_name = "" ∧ row.first_state = "" ∧ row.first_keyspace_id = "") →
      (renderTableEntry self table_id row = some [] ↔
        (oid < 16384 ∧ ((lookupKey self.btreekeyspacediff row.first_keyspace_id).map
          KeyspaceDiff.first_keyspace_type).getD "" = "ysql"))) := by
  constructor
  · intro hadd hne
    have hnu : ¬ (row.first_keyspace_id = row.second_keyspace_id
        ∧ row.first_table_name = row.second_table_name
        ∧ row.first_state = row.second_state) := by
      rintro ⟨h1, h2, h3⟩
      exact hne ⟨h2 ▸ hadd.1, h3 ▸ hadd.2.1, h1 ▸ hadd.2.2⟩
    simp only [renderTableEntry, if_neg hnu, if_pos hadd, hdec]
    by_cases hs : oid < 16384
        ∧ ((lookupKey self.btreekeyspacediff row.second_keyspace_id).map
          KeyspaceDiff.second_keyspace_type).getD "" = "ysql"
    · rw [if_pos hs]; simp [hs]
    · rw [if_neg hs]; simp [hs]
  · intro hrem hne
    have hnu : ¬ (row.first_keyspace_id = row.second_keyspace_id
        ∧ row.first_table_name = row.second_table_name
        ∧ row.first_state = row.second_state) := by
      rintro ⟨h1, h2, h3⟩
      exact hne ⟨h2.symm ▸ hrem.1, h3.symm ▸ hrem.2.1, h1.symm ▸ hrem.2.2⟩
    simp only [renderTableEntry, if_neg hnu, if_neg hne, if_pos hrem, hdec]
    by_cases hs : oid < 16384
        ∧ ((lookupKey self.btreekeyspacediff row.first_keyspace_id).map
          KeyspaceDiff.first_keyspace_type).getD "" = "ysql"
    · rw [if_pos hs]; simp [hs]
    · rw [if_neg hs]; simp [hs]

/-- Witness for C6 at a concrete engine state: the added catalog table with
object number 5 under a `ysql` keyspace is suppressed, with the suppression
condition holding. -/
theorem C6_witness :
    renderTableEntry wDiffC6 "00000001000030008000000000000005" wRowC6 = some []
    ∧ (5 < 16384 ∧ ((lookupKey wDiffC6.btreekeyspacediff wRowC6.second_keyspace_id).map
        KeyspaceDiff.second_keyspace_type).getD "" = "ysql") := by
  refine ⟨?_, by decide⟩
  exact ((C6_table_suppression wDiffC6 "00000001000030008000000000000005" wRowC6 5
    (by decide)).1 (by decide) (by decide)).mpr (by decide)

/-! ## Claim C3: duplicate identifiers within one snapshot -/

/-- C3, counterexample: in the SECOND merge pass a duplicated keyspace id is
not first-occurrence-wins — the later occurrence silently overwrites the
second-side fields, so the record ends with the second occurrence's name
`b`, not the first occurrence's `a` (and the pass has no duplicate error
site at all). -/
theorem C3_counterexample :
    (lookupKey (EntitiesDiff.new.second_snapshot [wEntityDup] "h").btreekeyspacediff
      "k1").map KeyspaceDiff.second_keyspace_name = some "b" := by decide

/-- C3 (amended): in `first_snapshot` (run on a fresh engine) the first
occurrence of a duplicated identifier wins and the duplicate is logged as an
error, for all four entity kinds; in `second_snapshot` duplicates are not
detected — the LAST occurrence's attribute values are retained on the
second side (the prior record's other fields are kept) and nothing is
logged (the pass has no error site). -/
theorem C3_amended_merge (entities : List Entities) (leader : String)
    (hl : leader ≠ "") :
    (∀ id, lookupKey (EntitiesDiff.new.first_snapshot entities leader).1.btreekeyspacediff id
      = ((keyspaceStream entities leader).find? (fun k => k.keyspace_id = id)).map
        mkFirstKeyspace) ∧
    (∀ id, lookupKey (EntitiesDiff.new.first_snapshot entities leader).1.btreetablesdiff id
      = ((tableStream entities leader).find? (fun t => t.table_id = id)).map
        mkFirstTable) ∧
    (∀ id, lookupKey (EntitiesDiff.new.first_snapshot entities leader).1.btreetabletsdiff id
      = ((tabletStream entities leader).find? (fun t => t.tablet_id = id)).map
        mkFirstTablet) ∧
    (∀ id, lookupKey (EntitiesDiff.new.first_snapshot entities leader).1.btreereplicasdiff id
      = ((replicaPairStream entities leader).find? (fun p => (p.1, p.2.server_uuid) = id)).map
        mkFirstReplica) ∧
    (∀ id, 2 ≤ ((keyspaceStream entities leader).filter
        (fun k => k.keyspace_id = id)).length →
      LogError.dupKeyspace id ∈ (EntitiesDiff.new.first_snapshot entities leader).2) ∧
    (∀ id, 2 ≤ ((tableStream entities leader).filter
        (fun t => t.table_id = id)).length →
      LogError.dupTable id ∈ (EntitiesDiff.new.first_snapshot entities leader).2) ∧
    (∀ id, 2 ≤ ((tabletStream entities leader).filter
        (fun t => t.tablet_id = id)).length →
      LogError.dupTablet id ∈ (EntitiesDiff.new.first_snapshot entities leader).2) ∧
    (∀ id, 2 ≤ ((replicaPairStream entities leader).filter
        (fun p => (p.1, p.2.server_uuid) = id)).length →
      LogError.dupReplica id ∈ (EntitiesDiff.new.first_snapshot entities leader).2) ∧
    (∀ (self : EntitiesDiff) id,
      lookupKey (self.second_snapshot entities leader).btreekeyspacediff id =
        match (keyspaceStream entities leader).reverse.find?
            (fun k => k.keyspace_id = id) with
        | none => lookupKey self.btreekeyspacediff id
        | some k => some (updSecondKeyspace k
            ((lookupKey self.btreekeyspacediff id).getD {}))) ∧
    (∀ (self : EntitiesDiff) id,
      lookupKey (self.second_snapshot entities leader).btreetablesdiff id =
        match (tableStream entities leader).reverse.find?
            (fun t => t.table_id = id) with
        | none => lookupKey self.btreetablesdiff id
        | some t => some (updSecondTable t
            ((lookupKey self.btreetablesdiff id).getD {}))) ∧
    (∀ (self : EntitiesDiff) id,
      lookupKey (self.second_snapshot entities leader).btreetabletsdiff id =
        match (tabletStream entities leader).reverse.find?
            (fun t => t.tablet_id = id) with
        | none => lookupKey self.btreetabletsdiff id
        | some t => some (updSecondTablet t
            ((lookupKey self.btreetabletsdiff id).getD {}))) ∧
    (∀ (self : EntitiesDiff) id,
      lookupKey (self.second_snapshot entities leader).btreereplicasdiff id =
        match (replicaPairStream entities leader).reverse.find?
            (fun p => (p.1, p.2.server_uuid) = id) with
        | none => lookupKey self.btreereplicasdiff id
        | some p => some (updSecondReplica p
            ((lookupKey self.btreereplicasdiff id).getD {}))) := by
  refine ⟨?_, ?_, ?_, ?_, ?_, ?_, ?_, ?_, ?_, ?_, ?_, ?_⟩
  · intro id
    simp only [EntitiesDiff.first_snapshot, if_neg hl]
    rw [mergeFirst_lookup]
    simp [EntitiesDiff.new, lookupKey_nil]
  · intro id
    simp only [EntitiesDiff.first_snapshot, if_neg hl]
    rw [mergeFirst_lookup]
    simp [EntitiesDiff.new, lookupKey_nil]
  · intro id
    simp only [EntitiesDiff.first_snapshot, if_neg hl]
    rw [mergeFirst_lookup]
    simp [EntitiesDiff.new, lookupKey_nil]
  · intro id
    simp only [EntitiesDiff.first_snapshot, if_neg hl]
    rw [mergeFirst_lookup]
    simp [EntitiesDiff.new, lookupKey_nil]
  · intro id hdup
    simp only [EntitiesDiff.first_snapshot, if_neg hl, List.mem_append]
    exact Or.inl (Or.inl (Or.inl (mergeFirst_errors_of_two _ _ _ _ _ _ hdup)))
  · intro id hdup
    simp only [EntitiesDiff.first_snapshot, if_neg hl, List.mem_append]
    exact Or.inl (Or.inl (Or.inr (mergeFirst_errors_of_two _ _ _ _ _ _ hdup)))
  · intro id hdup
    simp only [EntitiesDiff.first_snapshot, if_neg hl, List.mem_append]
    exact Or.inl (Or.inr (mergeFirst_errors_of_two _ _ _ _ _ _ hdup))
  · intro id hdup
    simp only [EntitiesDiff.first_snapshot, if_neg hl, List.mem_append]
    exact Or.inr (mergeFirst_errors_of_two _ _ _ _ _ _ hdup)
  · intro self id
    simp only [EntitiesDiff.second_snapshot, if_neg hl]
    rw [mergeSecond_lookup Keyspace.keyspace_id updSecondKeyspace {}
      (fun i j v => rfl)]
    cases (keyspaceStream entities leader).reverse.find?
      (fun k => k.keyspace_id = id) <;> rfl
  · intro self id
    simp only [EntitiesDiff.second_snapshot, if_neg hl]
    rw [mergeSecond_lookup Table.table_id updSecondTable {}
      (fun i j v => rfl)]
    cases (tableStream entities leader).reverse.find?
      (fun t => t.table_id = id) <;> rfl
  · intro self id
    simp only [EntitiesDiff.second_snapshot, if_neg hl]
    rw [mergeSecond_lookup Tablet.tablet_id updSecondTablet {}
      (fun i j v => rfl)]
    cases (tabletStream entities leader).reverse.find?
      (fun t => t.tablet_id = id) <;> rfl
  · intro self id
    simp only [EntitiesDiff.second_snapshot, if_neg hl]
    rw [mergeSecond_lookup (fun p : String × Replica => (p.1, p.2.server_uuid))
      updSecondReplica {} (fun i j v => rfl)]
    cases (replicaPairStream entities leader).reverse.find?
      (fun p => (p.1, p.2.server_uuid) = id) <;> rfl

/-- Witness for the amended C3 at the concrete duplicated snapshot:
first pass keeps `a` and logs the duplicate; second pass keeps `b`. -/
theorem C3_amended_witness :
    lookupKey (EntitiesDiff.new.first_snapshot [wEntityDup] "h").1.btreekeyspacediff "k1"
        = some (mkFirstKeyspace ⟨"k1", "a", "ysql"⟩)
    ∧ LogError.dupKeyspace "k1" ∈ (EntitiesDiff.new.first_snapshot [wEntityDup] "h").2
    ∧ lookupKey (EntitiesDiff.new.second_snapshot [wEntityDup] "h").btreekeyspacediff "k1"
        = some (updSecondKeyspace ⟨"k1", "b", "ysql"⟩
            ((lookupKey EntitiesDiff.new.btreekeyspacediff "k1").getD {})) := by
  obtain ⟨h1, h2, h3, h4, h5, h6, h7, h8, h9, h10⟩ :=
    C3_amended_merge [wEntityDup] "h" (by decide)
  refine ⟨?_, ?_, ?_⟩
  · rw [h1 "k1"]; decide
  · exact h5 "k1" (by decide)
  · rw [h9 EntitiesDiff.new "k1"]; decide

/-! ## Claim C4: empty leader handling -/

/-- C4, counterexample: an empty leader on the first side does not stick —
running the second pass afterwards with a non-empty leader resets
`master_found` to true and the diff print emits a change record (an Added
database row), refuting "either side empty ⇒ `master_found = false` and no
output". -/
theorem C4_counterexample :
    ((EntitiesDiff.new.first_snapshot [] "").1.second_snapshot
      [wEntityA] "h").master_found = true
    ∧ ((EntitiesDiff.new.first_snapshot [] "").1.second_snapshot
        [wEntityA] "h").print
      = some ([Line.dbAdded "ycql" "a" "k1" false], []) := by
  exact ⟨by decide, by decide⟩

/-- C4 (amended): a merge pass given an empty leader records
`master_found = false` and merges nothing for its side; the diff print
emits only the skip message whenever `master_found` is false; but each pass
overwrites `master_found`, so a pass with a non-empty leader sets it back
to true — output is suppressed exactly when the LAST pass executed saw an
empty leader, not when either side did. -/
theorem C4_amended_leader (self : EntitiesDiff) (entities : List Entities)
    (leader : String) :
    (self.first_snapshot entities "" = ({ self with master_found := false }, []))
    ∧ (self.second_snapshot entities "" = { self with master_found := false })
    ∧ (self.master_found = false → self.print = some ([Line.skip], []))
    ∧ (leader ≠ "" → (self.first_snapshot entities leader).1.master_found = true)
    ∧ (leader ≠ "" → (self.second_snapshot entities leader).master_found = true) := by
  refine ⟨?_, ?_, ?_, ?_, ?_⟩
  · simp [EntitiesDiff.first_snapshot]
  · simp [EntitiesDiff.second_snapshot]
  · intro h; simp [EntitiesDiff.print, h]
  · intro h; simp [EntitiesDiff.first_snapshot, h]
  · intro h; simp [EntitiesDiff.second_snapshot, h]

/-- Witness for the amended C4: a fresh engine prints only the skip
message, and a non-empty leader sets `master_found`. -/
theorem C4_amended_witness :
    EntitiesDiff.new.print = some ([Line.skip], [])
    ∧ (EntitiesDiff.new.first_snapshot [wEntityA] "h").1.master_found = true := by
  exact ⟨(C4_amended_leader EntitiesDiff.new [wEntityA] "h").2.2.1 (by decide),
    (C4_amended_leader EntitiesDiff.new [wEntityA] "h").2.2.2.1 (by decide)⟩

/-! ## Claim C5: which leader keys each side of a stored-snapshot diff -/

/-- C5: `snapshot_diff` resolves the master leader for BOTH sides from the
begin snapshot (source line 608 passes `begin_snapshot` again).  With a
store whose begin leader is `h1` and whose end leader is `h2`, the second
side records the values of the end snapshot as observed by `h1` (name `X`),
not those of the end snapshot's own leader `h2` (name `Y`) — diverging from
the claim that the second side filters by the end snapshot's leader. -/
theorem C5_second_side_leader :
    wStore.return_leader "1" = "h1" ∧ wStore.return_leader "2" = "h2" ∧
    (lookupKey (EntitiesDiff.snapshot_diff wStore "1" "2").1.btreekeyspacediff
      "k1").map (fun r => (r.first_keyspace_name, r.second_keyspace_name))
      = some ("W", "X") := by
  exact ⟨by decide, by decide, by decide⟩

/-! ## Claim C7: system-database suppression in the two rendering modes -/

theorem renderLiveKeyspace_kid (e : Entities) (dead under : List String)
    (row : Keyspace) (l : LiveLine)
    (hl : l ∈ renderLiveKeyspace e false dead under row) :
    is_system_keyspace row.keyspace_id = false ∧ l.kid = row.keyspace_id := by
  by_cases hs : is_system_keyspace row.keyspace_id
  · rw [renderLiveKeyspace] at hl
    simp [hs] at hl
  · refine ⟨by simp [hs], ?_⟩
    rw [renderLiveKeyspace] at hl
    rw [if_neg (by simp [hs])] at hl
    by_cases h1 : row.keyspace_type = "ysql"
        ∧ 0 < (e.tables.filter (fun r => r.keyspace_id == row.keyspace_id)).length
    · rw [if_pos h1] at hl
      rcases List.mem_cons.mp hl with rfl | hl2
      · rfl
      · by_cases h3 : (e.tablets.any
            (fun r => r.table_id == row.keyspace_id ++ ".colocated.parent.uuid")) = true
        · rw [if_pos h3] at hl2
          rcases List.mem_flatMap.mp hl2 with ⟨tablet, _, hmem⟩
          rcases List.mem_cons.mp hmem with rfl | hmem2
          · rfl
          · rcases List.mem_cons.mp hmem2 with rfl | hmem3
            · rfl
            · cases hmem3
        · rw [if_neg h3] at hl2
          cases hl2
    · rw [if_neg h1] at hl
      by_cases h2 : row.keyspace_type ≠ "ysql"
      · rw [if_pos h2] at hl
        rcases List.mem_cons.mp hl with rfl | hl2
        · rfl
        · cases hl2
      · rw [if_neg h2] at hl
        cases hl

theorem renderLiveTable_kid (e : Entities) (tnf : String → Bool)
    (dead under : List String) (row : Table) (ys : List LiveLine) (l : LiveLine)
    (hy : renderLiveTable e tnf false dead under row = some ys) (hl : l ∈ ys) :
    is_system_keyspace row.keyspace_id = false ∧ l.kid = row.keyspace_id := by
  by_cases hs : is_system_keyspace row.keyspace_id
  · rw [renderLiveTable, if_pos (by simp [hs])] at hy
    have hys := Option.some.inj hy
    subst hys
    cases hl
  · refine ⟨by simp [hs], ?_⟩
    rw [renderLiveTable, if_neg (by simp [hs])] at hy
    by_cases ht : tnf row.table_name
    · rw [if_neg (by simp [ht])] at hy
      cases hdec : object_oid_number row.table_id with
      | none => rw [hdec] at hy; cases hy
      | some oid =>
        rw [hdec] at hy
        simp only [] at hy
        split at hy
        · cases hy
        · have hys := Option.some.inj hy
          subst hys
          cases hl
        · have hys := Option.some.inj hy
          subst hys
          rcases List.mem_cons.mp hl with rfl | hl2
          · rfl
          · rcases List.mem_flatMap.mp hl2 with ⟨tablet, _, hmem⟩
            rcases List.mem_cons.mp hmem with rfl | hmem2
            · rfl
            · rcases List.mem_cons.mp hmem2 with rfl | hmem3
              · rfl
              · cases hmem3
    · rw [if_pos (by simp [ht])] at hy
      have hys := Option.some.inj hy
      subst hys
      cases hl

theorem renderLiveEntity_kid (tnf hnf : String → Bool) (leader : String)
    (dead under : List String) (e : Entities) (ys : List LiveLine) (l : LiveLine)
    (hy : renderLiveEntity tnf hnf false leader dead under e = some ys)
    (hl : l ∈ ys) : is_system_keyspace l.kid = false := by
  rw [renderLiveEntity] at hy
  by_cases hh : e.hostname_port = leader
  · rw [if_neg (by simp [hh])] at hy
    rw [if_neg (by simp)] at hy
    cases hcol : collectM (renderLiveTable e tnf false dead under) e.tables with
    | none => rw [hcol] at hy; cases hy
    | some tl =>
      rw [hcol] at hy
      have hys := Option.some.inj hy
      subst hys
      rcases List.mem_append.mp hl with hk | htab
      · rcases List.mem_flatMap.mp hk with ⟨row, _, hmem⟩
        rcases renderLiveKeyspace_kid e dead under row l hmem with ⟨h1, h2⟩
        rw [h2]; exact h1
      · rcases collectM_mem _ _ _ hcol l htab with ⟨trow, _, ws, hws, hlw⟩
        rcases renderLiveTable_kid e tnf dead under trow ws l hws hlw with ⟨h1, h2⟩
        rw [h2]; exact h1
  · rw [if_pos (by simp [hh])] at hy
    have hys := Option.some.inj hy
    subst hys
    cases hl

/-- C7, counterexample: the diff view does NOT hide allow-listed system
database ids — its `is_system_keyspace` suppression is commented out in the
source — so an added record for the system keyspace id
`00000000000000000000000000000001` is printed by the diff view. -/
theorem C7_counterexample :
    is_system_keyspace "00000000000000000000000000000001" = true
    ∧ wDiffSys.print
      = some ([Line.dbAdded "ycql" "system"
          "00000000000000000000000000000001" false], []) := by
  exact ⟨by decide, by decide⟩

/-- C7 (amended): only the live view applies the system-database
suppression — without details every line it prints belongs to a keyspace id
outside the allow-list; the diff view renders system databases like any
others (witnessed by the system-keyspace record it prints). -/
theorem C7_amended_suppression (entities : List Entities)
    (tnf hnf : String → Bool) (leader : String)
    (dead under : List String) (lines : List LiveLine)
    (h : AllEntities.print entities tnf false leader hnf dead under
      = some lines) :
    (∀ l ∈ lines, is_system_keyspace l.kid = false)
    ∧ wDiffSys.print
      = some ([Line.dbAdded "ycql" "system"
          "00000000000000000000000000000001" false], []) := by
  refine ⟨?_, by decide⟩
  intro l hl
  rcases collectM_mem _ _ _ h l hl with ⟨e, _, ys, hys, hly⟩
  exact renderLiveEntity_kid tnf hnf leader dead under e ys l hys hly

/-- Witness for the amended C7: the live view of a non-system snapshot
prints its row (whose keyspace id is outside the allow-list), and the diff
view prints the system database. -/
theorem C7_amended_witness :
    (∀ l ∈ [LiveLine.keyspace none "ycql" "a" "k1" false],
      is_system_keyspace l.kid = false)
    ∧ wDiffSys.print
      = some ([Line.dbAdded "ycql" "system"
          "00000000000000000000000000000001" false], []) :=
  C7_amended_suppression [wEntityA] (fun _ => true) (fun _ => true) "h" [] []
    [LiveLine.keyspace none "ycql" "a" "k1" false] (by decide)

/-! ## Claim C8: idempotence of diffing a snapshot against itself -/

theorem print_all_unchanged (self : EntitiesDiff)
    (hm : self.master_found = true)
    (hk : ∀ p ∈ self.btreekeyspacediff, keyspaceUnchanged p.2)
    (ht : ∀ p ∈ self.btreetablesdiff, tableUnchanged p.2)
    (hb : ∀ p ∈ self.btreetabletsdiff, tabletUnchanged p.2)
    (hr : ∀ p ∈ self.btreereplicasdiff, replicaUnchanged p.2) :
    self.print = some ([], []) := by
  have hkrender : ∀ p ∈ self.btreekeyspacediff,
      renderKeyspaceEntry self p.1 p.2 = ([], []) := by
    intro p hp
    rcases hk p hp with ⟨hn, hty⟩
    by_cases hy : p.2.second_keyspace_type = "ysql"
    · have hcount : (self.btreetablesdiff.filter
          (fun q => q.2.first_keyspace_id == p.1)).length
          = (self.btreetablesdiff.filter
            (fun q => q.2.second_keyspace_id == p.1)).length := by
        congr 1
        apply List.filter_congr
        intro q hq
        rcases ht q hq with ⟨hkid, _, _⟩
        rw [hkid]
      simp only [renderKeyspaceEntry, if_pos (And.intro hn hty), if_pos hy]
      rw [if_pos (by omega)]
    · simp only [renderKeyspaceEntry, if_pos (And.intro hn hty), if_neg hy]
  have htrender : ∀ p ∈ self.btreetablesdiff,
      renderTableEntry self p.1 p.2 = some [] := by
    intro p hp
    rcases ht p hp with ⟨ha, hb2, hc⟩
    rw [renderTableEntry, if_pos (And.intro ha (And.intro hb2 hc))]
  have hbrender : ∀ p ∈ self.btreetabletsdiff,
      renderTabletEntry self p.1 p.2 = [] := by
    intro p hp
    rcases hb p hp with ⟨ha, hb2, hc⟩
    rw [renderTabletEntry, if_pos (And.intro ha (And.intro hb2 hc))]
  have hrrender : ∀ p ∈ self.btreereplicasdiff,
      renderReplicaEntry self p.1 p.2 = [] := by
    intro p hp
    rcases hr p hp with ⟨ha, hb2⟩
    rw [renderReplicaEntry, if_pos (And.intro ha hb2)]
  have hkl : printKeyspaces self = ([], []) := by
    rw [printKeyspaces,
      flatMap_all_nil _ _ (fun p hp => by rw [hkrender p hp]),
      flatMap_all_nil _ _ (fun p hp => by rw [hkrender p hp])]
  have htl : printTables self = some [] := by
    rw [printTables]
    exact collectM_all_nil _ _ (fun p hp => htrender p hp)
  have hbl : printTablets self = [] := by
    rw [printTablets]
    exact flatMap_all_nil _ _ (fun p hp => hbrender p hp)
  have hrl : printReplicas self = [] := by
    rw [printReplicas]
    exact flatMap_all_nil _ _ (fun p hp => hrrender p hp)
  rw [EntitiesDiff.print, if_neg (by simp [hm]), htl]
  simp [hkl, hbl, hrl]

/-- C8: diffing a snapshot against an identical copy of itself — merging
the same authoritative snapshot as first and as second side with the same
non-empty leader, identifiers unique per kind as the data model requires —
yields zero Added, Removed and Modified output rows for all four entity
kinds (the diff print output is empty). -/
theorem C8_idempotence (entities : List Entities) (leader : String) (hl : leader ≠ "")
    (h1 : ((keyspaceStream entities leader).map Keyspace.keyspace_id).Nodup)
    (h2 : ((tableStream entities leader).map Table.table_id).Nodup)
    (h3 : ((tabletStream entities leader).map Tablet.tablet_id).Nodup)
    (h4 : ((replicaPairStream entities leader).map
      (fun p => (p.1, p.2.server_uuid))).Nodup) :
    ((EntitiesDiff.new.first_snapshot entities leader).1.second_snapshot
      entities leader).print = some ([], []) := by
  have hfK := mergeFirst_disjoint Keyspace.keyspace_id mkFirstKeyspace
    LogError.dupKeyspace (keyspaceStream entities leader) [] h1 (fun i _ => rfl)
  have hfT := mergeFirst_disjoint Table.table_id mkFirstTable
    LogError.dupTable (tableStream entities leader) [] h2 (fun i _ => rfl)
  have hfB := mergeFirst_disjoint Tablet.tablet_id mkFirstTablet
    LogError.dupTablet (tabletStream entities leader) [] h3 (fun i _ => rfl)
  have hfR := mergeFirst_disjoint (fun p : String × Replica => (p.1, p.2.server_uuid))
    mkFirstReplica LogError.dupReplica (replicaPairStream entities leader) []
    h4 (fun i _ => rfl)
  have hsK := mergeSecond_self Keyspace.keyspace_id updSecondKeyspace
    (fun k => updSecondKeyspace k {}) mkFirstKeyspace
    (keyspaceStream entities leader) h1
  have hsT := mergeSecond_self Table.table_id updSecondTable
    (fun t => updSecondTable t {}) mkFirstTable
    (tableStream entities leader) h2
  have hsB := mergeSecond_self Tablet.tablet_id updSecondTablet
    (fun t => updSecondTablet t {}) mkFirstTablet
    (tabletStream entities leader) h3
  have hsR := mergeSecond_self (fun p : String × Replica => (p.1, p.2.server_uuid))
    updSecondReplica (fun p => updSecondReplica p {}) mkFirstReplica
    (replicaPairStream entities leader) h4
  have hd : (EntitiesDiff.new.first_snapshot entities leader).1.second_snapshot
      entities leader
      = { master_found := true
          btreekeyspacediff := (keyspaceStream entities leader).map
            (fun k => (k.keyspace_id, updSecondKeyspace k (mkFirstKeyspace k)))
          btreetablesdiff := (tableStream entities leader).map
            (fun t => (t.table_id, updSecondTable t (mkFirstTable t)))
          btreetabletsdiff := (tabletStream entities leader).map
            (fun t => (t.tablet_id, updSecondTablet t (mkFirstTablet t)))
          btreereplicasdiff := (replicaPairStream entities leader).map
            (fun p => ((p.1, p.2.server_uuid), updSecondReplica p (mkFirstReplica p))) } := by
    simp only [EntitiesDiff.first_snapshot, EntitiesDiff.second_snapshot,
      if_neg hl, EntitiesDiff.new]
    rw [hfK, hfT, hfB, hfR]
    simp only [List.nil_append]
    rw [hsK, hsT, hsB, hsR]
  rw [hd]
  apply print_all_unchanged
  · rfl
  · intro p hp
    rcases List.mem_map.mp hp with ⟨k, _, rfl⟩
    exact ⟨rfl, rfl⟩
  · intro p hp
    rcases List.mem_map.mp hp with ⟨t, _, rfl⟩
    exact ⟨rfl, rfl, rfl⟩
  · intro p hp
    rcases List.mem_map.mp hp with ⟨t, _, rfl⟩
    exact ⟨rfl, rfl, rfl⟩
  · intro p hp
    rcases List.mem_map.mp hp with ⟨q, _, rfl⟩
    exact ⟨rfl, rfl⟩

/-- Witness for C8 at a concrete snapshot with one keyspace, table, tablet
and replica. -/
theorem C8_witness :
    ((EntitiesDiff.new.first_snapshot [wEntityFull] "h").1.second_snapshot
      [wEntityFull] "h").print = some ([], []) :=
  C8_idempotence [wEntityFull] "h" (by decide) (by decide) (by decide) (by decide)
    (by decide)

/-! ## Claim C9: commutativity of record creation up to side swap -/

theorem swap_lookup_generic [DecidableEq K] (key : I → K)
    (mkF : I → V) (upd : I → V → V) (dflt : V) (swp : V → V)
    (logd : K → LogError)
    (hyp1 : ∀ i j v, upd i (upd j v) = upd i v)
    (hswap1 : ∀ i, swp (mkF i) = upd i dflt)
    (hswap2 : ∀ i, swp (upd i dflt) = mkF i)
    (hswap3 : ∀ i j, swp (upd j (mkF i)) = upd i (mkF j))
    (sa sb : List I)
    (hA : (sa.map key).Nodup) (hB : (sb.map key).Nodup) (k : K) :
    lookupKey (mergeSecond key upd (fun i => upd i dflt)
        (mergeFirst key mkF logd [] sb).1 sa) k
      = (lookupKey (mergeSecond key upd (fun i => upd i dflt)
          (mergeFirst key mkF logd [] sa).1 sb) k).map swp := by
  rw [mergeSecond_lookup key upd dflt hyp1,
    mergeSecond_lookup key upd dflt hyp1,
    mergeFirst_lookup, mergeFirst_lookup,
    find?_reverse_of_nodup key sa k hA,
    find?_reverse_of_nodup key sb k hB]
  simp only [lookupKey_nil]
  cases ha : sa.find? (fun i => key i = k) with
  | none =>
    cases hb : sb.find? (fun i => key i = k) with
    | none => simp
    | some b => simp [hswap2 b]
  | some a =>
    cases hb : sb.find? (fun i => key i = k) with
    | none => simp [hswap1 a]
    | some b => simp [hswap3 a b]

/-- C9: merging snapshots A then B into one engine and B then A into an
independent engine (both leaders non-empty, identifiers unique per kind as
the data model requires) creates the same records with the first/second
roles swapped: the two engines' four maps agree pointwise up to `swap`, and
swapping preserves each kind's "unchanged" classification — so the engines
hold the same set of non-unchanged records with the sides exchanged. -/
theorem C9_commutation (A B : List Entities) (la lb : String)
    (hla : la ≠ "") (hlb : lb ≠ "")
    (hA1 : ((keyspaceStream A la).map Keyspace.keyspace_id).Nodup)
    (hA2 : ((tableStream A la).map Table.table_id).Nodup)
    (hA3 : ((tabletStream A la).map Tablet.tablet_id).Nodup)
    (hA4 : ((replicaPairStream A la).map (fun p => (p.1, p.2.server_uuid))).Nodup)
    (hB1 : ((keyspaceStream B lb).map Keyspace.keyspace_id).Nodup)
    (hB2 : ((tableStream B lb).map Table.table_id).Nodup)
    (hB3 : ((tabletStream B lb).map Tablet.tablet_id).Nodup)
    (hB4 : ((replicaPairStream B lb).map (fun p => (p.1, p.2.server_uuid))).Nodup) :
    (∀ id, lookupKey ((EntitiesDiff.new.first_snapshot B lb).1.second_snapshot
        A la).btreekeyspacediff id
      = (lookupKey ((EntitiesDiff.new.first_snapshot A la).1.second_snapshot
          B lb).btreekeyspacediff id).map KeyspaceDiff.swap) ∧
    (∀ id, lookupKey ((EntitiesDiff.new.first_snapshot B lb).1.second_snapshot
        A la).btreetablesdiff id
      = (lookupKey ((EntitiesDiff.new.first_snapshot A la).1.second_snapshot
          B lb).btreetablesdiff id).map TablesDiff.swap) ∧
    (∀ id, lookupKey ((EntitiesDiff.new.first_snapshot B lb).1.second_snapshot
        A la).btreetabletsdiff id
      = (lookupKey ((EntitiesDiff.new.first_snapshot A la).1.second_snapshot
          B lb).btreetabletsdiff id).map TabletsDiff.swap) ∧
    (∀ id, lookupKey ((EntitiesDiff.new.first_snapshot B lb).1.second_snapshot
        A la).btreereplicasdiff id
      = (lookupKey ((EntitiesDiff.new.first_snapshot A la).1.second_snapshot
          B lb).btreereplicasdiff id).map ReplicasDiff.swap) ∧
    (∀ r : KeyspaceDiff, keyspaceUnchanged r.swap ↔ keyspaceUnchanged r) ∧
    (∀ r : TablesDiff, tableUnchanged r.swap ↔ tableUnchanged r) ∧
    (∀ r : TabletsDiff, tabletUnchanged r.swap ↔ tabletUnchanged r) ∧
    (∀ r : ReplicasDiff, replicaUnchanged r.swap ↔ replicaUnchanged r) := by
  refine ⟨?_, ?_, ?_, ?_, ?_, ?_, ?_, ?_⟩
  · intro id
    simp only [EntitiesDiff.first_snapshot, EntitiesDiff.second_snapshot,
      if_neg hla, if_neg hlb, EntitiesDiff.new]
    exact swap_lookup_generic Keyspace.keyspace_id mkFirstKeyspace
      updSecondKeyspace {} KeyspaceDiff.swap LogError.dupKeyspace
      (fun i j v => rfl) (fun i => rfl) (fun i => rfl) (fun i j => rfl)
      (keyspaceStream A la) (keyspaceStream B lb) hA1 hB1 id
  · intro id
    simp only [EntitiesDiff.first_snapshot, EntitiesDiff.second_snapshot,
      if_neg hla, if_neg hlb, EntitiesDiff.new]
    exact swap_lookup_generic Table.table_id mkFirstTable
      updSecondTable {} TablesDiff.swap LogError.dupTable
      (fun i j v => rfl) (fun i => rfl) (fun i => rfl) (fun i j => rfl)
      (tableStream A la) (tableStream B lb) hA2 hB2 id
  · intro id
    simp only [EntitiesDiff.first_snapshot, EntitiesDiff.second_snapshot,
      if_neg hla, if_neg hlb, EntitiesDiff.new]
    exact swap_lookup_generic Tablet.tablet_id mkFirstTablet
      updSecondTablet {} TabletsDiff.swap LogError.dupTablet
      (fun i j v => rfl) (fun i => rfl) (fun i => rfl) (fun i j => rfl)
      (tabletStream A la) (tabletStream B lb) hA3 hB3 id
  · intro id
    simp only [EntitiesDiff.first_snapshot, EntitiesDiff.second_snapshot,
      if_neg hla, if_neg hlb, EntitiesDiff.new]
    exact swap_lookup_generic (fun p : String × Replica => (p.1, p.2.server_uuid))
      mkFirstReplica updSecondReplica {} ReplicasDiff.swap LogError.dupReplica
      (fun i j v => rfl) (fun i => rfl) (fun i => rfl) (fun i j => rfl)
      (replicaPairStream A la) (replicaPairStream B lb) hA4 hB4 id
  · intro r
    exact ⟨fun h => ⟨h.1.symm, h.2.symm⟩, fun h => ⟨h.1.symm, h.2.symm⟩⟩
  · intro r
    exact ⟨fun h => ⟨h.1.symm, h.2.1.symm, h.2.2.symm⟩,
      fun h => ⟨h.1.symm, h.2.1.symm, h.2.2.symm⟩⟩
  · intro r
    exact ⟨fun h => ⟨h.1.symm, h.2.1.symm, h.2.2.symm⟩,
      fun h => ⟨h.1.symm, h.2.1.symm, h.2.2.symm⟩⟩
  · intro r
    exact ⟨fun h => ⟨h.1.symm, h.2.symm⟩, fun h => ⟨h.1.symm, h.2.symm⟩⟩

/-- Witness for C9 at two concrete one-keyspace snapshots with different
leaders. -/
theorem C9_witness :
    lookupKey ((EntitiesDiff.new.first_snapshot [wEntityB] "h2").1.second_snapshot
      [wEntityA] "h").btreekeyspacediff "k1"
      = (lookupKey ((EntitiesDiff.new.first_snapshot [wEntityA] "h").1.second_snapshot
          [wEntityB] "h2").btreekeyspacediff "k1").map KeyspaceDiff.swap :=
  (C9_commutation [wEntityA] [wEntityB] "h" "h2" (by decide) (by decide)
    (by decide) (by decide) (by decide) (by decide) (by decide) (by decide)
    (by decide) (by decide)).1 "k1"

/-! ## Claim C10: the merge passes only insert or update, each its own side -/

/-- C10: neither merge pass ever removes a change record — every key
present before a pass is still present after it.  `first_snapshot` leaves
every pre-existing record entirely unchanged (in particular it never writes
any second-side field), and `second_snapshot` leaves every first-side field
of every pre-existing record unchanged.  Stated for all four maps. -/
theorem C10_frame (self : EntitiesDiff) (entities : List Entities)
    (leader : String) :
    (∀ k v, lookupKey self.btreekeyspacediff k = some v →
      lookupKey (self.first_snapshot entities leader).1.btreekeyspacediff k
        = some v) ∧
    (∀ k v, lookupKey self.btreetablesdiff k = some v →
      lookupKey (self.first_snapshot entities leader).1.btreetablesdiff k
        = some v) ∧
    (∀ k v, lookupKey self.btreetabletsdiff k = some v →
      lookupKey (self.first_snapshot entities leader).1.btreetabletsdiff k
        = some v) ∧
    (∀ k v, lookupKey self.btreereplicasdiff k = some v →
      lookupKey (self.first_snapshot entities leader).1.btreereplicasdiff k
        = some v) ∧
    (∀ k v, lookupKey self.btreekeyspacediff k = some v →
      ∃ w, lookupKey (self.second_snapshot entities leader).btreekeyspacediff k
          = some w
        ∧ w.first_keyspace_name = v.first_keyspace_name
        ∧ w.first_keyspace_type = v.first_keyspace_type) ∧
    (∀ k v, lookupKey self.btreetablesdiff k = some v →
      ∃ w, lookupKey (self.second_snapshot entities leader).btreetablesdiff k
          = some w
        ∧ w.first_keyspace_id = v.first_keyspace_id
        ∧ w.first_table_name = v.first_table_name
        ∧ w.first_state = v.first_state) ∧
    (∀ k v, lookupKey self.btreetabletsdiff k = some v →
      ∃ w, lookupKey (self.second_snapshot entities leader).btreetabletsdiff k
          = some w
        ∧ w.first_table_id = v.first_table_id
        ∧ w.first_state = v.first_state
        ∧ w.first_leader = v.first_leader) ∧
    (∀ k v, lookupKey self.btreereplicasdiff k = some v →
      ∃ w, lookupKey (self.second_snapshot entities leader).btreereplicasdiff k
          = some w
        ∧ w.first_addr = v.first_addr
        ∧ w.first_replica_type = v.first_replica_type) := by
  refine ⟨?_, ?_, ?_, ?_, ?_, ?_, ?_, ?_⟩
  · intro k v hv
    by_cases hl : leader = ""
    · simp only [EntitiesDiff.first_snapshot, if_pos hl]
      exact hv
    · simp only [EntitiesDiff.first_snapshot, if_neg hl]
      rw [mergeFirst_lookup, hv]
  · intro k v hv
    by_cases hl : leader = ""
    · simp only [EntitiesDiff.first_snapshot, if_pos hl]
      exact hv
    · simp only [EntitiesDiff.first_snapshot, if_neg hl]
      rw [mergeFirst_lookup, hv]
  · intro k v hv
    by_cases hl : leader = ""
    · simp only [EntitiesDiff.first_snapshot, if_pos hl]
      exact hv
    · simp only [EntitiesDiff.first_snapshot, if_neg hl]
      rw [mergeFirst_lookup, hv]
  · intro k v hv
    by_cases hl : leader = ""
    · simp only [EntitiesDiff.first_snapshot, if_pos hl]
      exact hv
    · simp only [EntitiesDiff.first_snapshot, if_neg hl]
      rw [mergeFirst_lookup, hv]
  · intro k v hv
    by_cases hl : leader = ""
    · refine ⟨v, ?_, rfl, rfl⟩
      simp only [EntitiesDiff.second_snapshot, if_pos hl]
      exact hv
    · simp only [EntitiesDiff.second_snapshot, if_neg hl]
      rw [mergeSecond_lookup Keyspace.keyspace_id updSecondKeyspace {}
        (fun i j v => rfl)]
      cases hf : (keyspaceStream entities leader).reverse.find?
          (fun x => x.keyspace_id = k) with
      | none => exact ⟨v, hv, rfl, rfl⟩
      | some i => exact ⟨updSecondKeyspace i v, by rw [hv]; rfl, rfl, rfl⟩
  · intro k v hv
    by_cases hl : leader = ""
    · refine ⟨v, ?_, rfl, rfl, rfl⟩
      simp only [EntitiesDiff.second_snapshot, if_pos hl]
      exact hv
    · simp only [EntitiesDiff.second_snapshot, if_neg hl]
      rw [mergeSecond_lookup Table.table_id updSecondTable {}
        (fun i j v => rfl)]
      cases hf : (tableStream entities leader).reverse.find?
          (fun x => x.table_id = k) with
      | none => exact ⟨v, hv, rfl, rfl, rfl⟩
      | some i => exact ⟨updSecondTable i v, by rw [hv]; rfl, rfl, rfl, rfl⟩
  · intro k v hv
    by_cases hl : leader = ""
    · refine ⟨v, ?_, rfl, rfl, rfl⟩
      simp only [EntitiesDiff.second_snapshot, if_pos hl]
      exact hv
    · simp only [EntitiesDiff.second_snapshot, if_neg hl]
      rw [mergeSecond_lookup Tablet.tablet_id updSecondTablet {}
        (fun i j v => rfl)]
      cases hf : (tabletStream entities leader).reverse.find?
          (fun x => x.tablet_id = k) with
      | none => exact ⟨v, hv, rfl, rfl, rfl⟩
      | some i => exact ⟨updSecondTablet i v, by rw [hv]; rfl, rfl, rfl, rfl⟩
  · intro k v hv
    by_cases hl : leader = ""
    · refine ⟨v, ?_, rfl, rfl⟩
      simp only [EntitiesDiff.second_snapshot, if_pos hl]
      exact hv
    · simp only [EntitiesDiff.second_snapshot, if_neg hl]
      rw [mergeSecond_lookup (fun p : String × Replica => (p.1, p.2.server_uuid))
        updSecondReplica {} (fun i j v => rfl)]
      cases hf : (replicaPairStream entities leader).reverse.find?
          (fun x => (x.1, x.2.server_uuid) = k) with
      | none => exact ⟨v, hv, rfl, rfl⟩
      | some i => exact ⟨updSecondReplica i v, by rw [hv]; rfl, rfl, rfl⟩

/-- Witness for C10: merging a snapshot on top of a populated engine keeps
the pre-existing keyspace record intact through the first pass, and keeps
its first-side fields through the second pass. -/
theorem C10_witness :
    lookupKey ((wDiffPre.first_snapshot [wEntityA] "h").1.btreekeyspacediff) "k0"
      = some
        { first_keyspace_name := "n0"
          first_keyspace_type := "ycql"
          second_keyspace_name := "n1"
          second_keyspace_type := "ycql" } :=
  (C10_frame wDiffPre [wEntityA] "h").1 "k0"
    { first_keyspace_name := "n0"
      first_keyspace_type := "ycql"
      second_keyspace_name := "n1"
      second_keyspace_type := "ycql" } (by decide)
